import Mathlib

/-!
Verification development for the web-inspector repository.

The analyzed program is `src/api/website-analyzer.js` together with its
HTTP endpoint `src/api/analyze.js` and the static rule catalog
`src/api/web-design-rules.js`.  The JavaScript is shallowly embedded:

* the regex-based HTML inspections of `performRuleCheck` are modelled by a
  small executable pattern engine over `List Char` (tokens for literals,
  single-character classes, greedy and lazy repetitions, optional
  characters, and one-or-more captured runs), which reproduces the
  existential matching semantics of `RegExp.test`, leftmost scanning for
  first matches, and non-overlapping scanning for global counts;
* JavaScript numbers appearing in the score are modelled exactly with `ℚ`
  (and `Option` for NaN); machine floating point is not needed at the small
  magnitudes involved;
* the mutable accumulation loops (`forEach` over rules, the summary
  counters) become structural recursion returning the accumulated values;
* exceptions (`throw`/`try`/`catch`) become `Except String`.
-/

/-- Case-insensitive character comparison; JavaScript case-insensitive
regex matching is modelled via ASCII lowering (`Char.toLower`). -/
def lcEq (a b : Char) : Bool := a.toLower == b.toLower

/-- Case-insensitive list-prefix test, used for `/i` regex literals. -/
def lcPref : List Char → List Char → Bool
  | [], _ => true
  | _ :: _, [] => false
  | p :: ps, c :: cs => lcEq p c && lcPref ps cs

/-- Tokens of the pattern language covering the regex constructs used by
`performRuleCheck`: case-insensitive and case-sensitive literals, a single
character from a class, greedy `*` over a class, lazy `*?` over a class,
an optional character (for counted repetitions like `[0-9a-f]{2,5}`), and
a captured one-or-more run `([c]+)`. -/
inductive Tok where
  | lit : List Char → Tok
  | litCS : List Char → Tok
  | one : (Char → Bool) → Tok
  | many0 : (Char → Bool) → Tok
  | many0L : (Char → Bool) → Tok
  | opt : (Char → Bool) → Tok
  | grp : (Char → Bool) → Tok

/-- Backtracking matcher: attempts to match the token sequence at the head
of `s`, returning the (at most one) captured run and the remaining suffix
of the first successful alternative in JavaScript preference order (greedy
repetitions try longer runs first, lazy ones shorter runs first). -/
def cmatch : (toks : List Tok) → (s : List Char) → Option (Option (List Char) × List Char)
  | [], s => some (none, s)
  | .lit l :: ts, s => if lcPref l s then cmatch ts (s.drop l.length) else none
  | .litCS l :: ts, s => if l.isPrefixOf s then cmatch ts (s.drop l.length) else none
  | .one _ :: _, [] => none
  | .one p :: ts, c :: s => if p c then cmatch ts s else none
  | .many0 _ :: ts, [] => cmatch ts []
  | .many0 p :: ts, c :: s =>
      if p c then (cmatch (.many0 p :: ts) s).orElse (fun _ => cmatch ts (c :: s))
      else cmatch ts (c :: s)
  | .many0L _ :: ts, [] => cmatch ts []
  | .many0L p :: ts, c :: s =>
      (cmatch ts (c :: s)).orElse
        (fun _ => if p c then cmatch (.many0L p :: ts) s else none)
  | .opt _ :: ts, [] => cmatch ts []
  | .opt p :: ts, c :: s =>
      if p c then (cmatch ts s).orElse (fun _ => cmatch ts (c :: s))
      else cmatch ts (c :: s)
  | .grp _ :: _, [] => none
  | .grp p :: ts, c :: s =>
      if p c then
        match cmatch (.grp p :: ts) s with
        | some (cap, rest) => some (some (c :: cap.getD []), rest)
        | none => (cmatch ts s).map (fun pr => (some [c], pr.2))
      else none
  termination_by toks s => toks.length + s.length
  decreasing_by
    all_goals simp [List.length_drop]
    all_goals omega

/-- Alternation: try each alternative token list in order (JavaScript `|`
preference). -/
def cmatchAlts (alts : List (List Tok)) (s : List Char) :
    Option (Option (List Char) × List Char) :=
  alts.findSome? (fun t => cmatch t s)

/-- `RegExp.test` model: the pattern matches starting at some position. -/
def reTest (alts : List (List Tok)) (s : List Char) : Bool :=
  s.tails.any (fun t => (cmatchAlts alts t).isSome)

/-- Leftmost match, returning its capture and remaining suffix. -/
def reFind (alts : List (List Tok)) : (s : List Char) →
    Option (Option (List Char) × List Char)
  | [] => cmatchAlts alts []
  | c :: s' =>
    match cmatchAlts alts (c :: s') with
    | some r => some r
    | none => reFind alts s'
  termination_by s => s.length

/-- Capture of the leftmost match (`String.match` without `g`, group 1). -/
def reFirstCapture (alts : List (List Tok)) (s : List Char) : Option (List Char) :=
  (reFind alts s).bind (·.1)

/-- All matches of a global regex, leftmost and non-overlapping, as
(matched slice, capture) pairs — model of `String.match(/..../g)`. -/
def reMatchList (alts : List (List Tok)) : (s : List Char) →
    List (List Char × Option (List Char))
  | [] => []
  | c :: s' =>
    match cmatchAlts alts (c :: s') with
    | some (cap, rest) =>
        if _h : rest.length < (c :: s').length then
          ((c :: s').take ((c :: s').length - rest.length), cap) :: reMatchList alts rest
        else []
    | none => reMatchList alts s'
  termination_by s => s.length

/-- Number of global matches (`(s.match(/..../g) || []).length`). -/
def countRe (alts : List (List Tok)) (s : List Char) : Nat :=
  (reMatchList alts s).length

/-- Matched slices of a global regex. -/
def reSlices (alts : List (List Tok)) (s : List Char) : List (List Char) :=
  (reMatchList alts s).map (·.1)

/-- Model of `String.replace(/..../g, '')`: drop every match, keep the
rest of the characters. -/
def jsRemoveAll (alts : List (List Tok)) : (s : List Char) → List Char
  | [] => []
  | c :: s' =>
    match cmatchAlts alts (c :: s') with
    | some (_, rest) =>
        if _h : rest.length < (c :: s').length then jsRemoveAll alts rest else c :: s'
    | none => c :: jsRemoveAll alts s'
  termination_by s => s.length

/-- JavaScript `\w` (ASCII word character). -/
def wordChar (c : Char) : Bool :=
  ('a' ≤ c && c ≤ 'z') || ('A' ≤ c && c ≤ 'Z') || ('0' ≤ c && c ≤ '9') || c == '_'

/-- A `\b` word boundary holds before the scan position given the previous
character (`none` at the start of the string). -/
def boundaryOk : Option Char → Bool
  | none => true
  | some c => !wordChar c

/-- Count of global matches of a pattern anchored by a leading `\b`,
tracking the character preceding each scan position. -/
def bCountAux (alts : List (List Tok)) : (prev : Option Char) → (s : List Char) → Nat
  | _, [] => 0
  | prev, c :: s' =>
    match (if boundaryOk prev then cmatchAlts alts (c :: s') else none) with
    | some (_, rest) =>
        if _h : rest.length < (c :: s').length then
          1 + bCountAux alts (((c :: s').take ((c :: s').length - rest.length)).getLast?) rest
        else 0
    | none => bCountAux alts (some c) s'
  termination_by _ s => s.length

/-- Count of matches of a `\b`-anchored pattern from the string start. -/
def bCount (alts : List (List Tok)) (s : List Char) : Nat := bCountAux alts none s

/-- Test of a `\b`-anchored pattern. -/
def bTest (alts : List (List Tok)) (s : List Char) : Bool := bCount alts s != 0

/-! ### Character classes and string helpers -/

/-- `[^>]`. -/
def notGt (c : Char) : Bool := c != '>'

/-- `["']`. -/
def isQuote (c : Char) : Bool := c == '"' || c == '\''

/-- `[^"']`. -/
def notQuote (c : Char) : Bool := !isQuote c

/-- `\s` (JavaScript whitespace, modelled by `Char.isWhitespace`). -/
def isWs (c : Char) : Bool := c.isWhitespace

/-- `[\s\S]` — any character. -/
def anyChar (_ : Char) : Bool := true

/-- `[^<]`. -/
def notLt (c : Char) : Bool := c != '<'

/-- `[^:]`. -/
def notColon (c : Char) : Bool := c != ':'

/-- `[^=]`. -/
def notEq (c : Char) : Bool := c != '='

/-- `[^}]` (closing brace written as an escape). -/
def notRBrace (c : Char) : Bool := c != '\x7d'

/-- `[^{]` (opening brace written as an escape). -/
def notLBrace (c : Char) : Bool := c != '\x7b'

/-- `[0-9]`. -/
def isDigitC (c : Char) : Bool := '0' ≤ c && c ≤ '9'

/-- `[0-5]`. -/
def isDigit05 (c : Char) : Bool := '0' ≤ c && c ≤ '5'

/-- `[0-9a-f]` (case-insensitive hex digit under `/i`). -/
def isHex (c : Char) : Bool :=
  isDigitC c || ('a' ≤ c.toLower && c.toLower ≤ 'f')

/-- The backtick character (code point 96). -/
def btChar : Char := Char.ofNat 96

/-- Shorthand for a case-insensitive literal token. -/
def tlit (s : String) : Tok := .lit s.data

/-- Shorthand for a case-sensitive literal token. -/
def tcs (s : String) : Tok := .litCS s.data

/-- Substring containment on character lists. -/
def listContains (s sub : List Char) : Bool :=
  s.tails.any (fun t => sub.isPrefixOf t)

/-- Substring containment (`String.includes`; for the case-insensitive
uses both sides are lowered by the caller, as in the source). -/
def jsIncludes (s sub : String) : Bool := listContains s.data sub.data

/-- `String.startsWith`, computed structurally on the character lists. -/
def jsStartsWith (s pre : String) : Bool := pre.data.isPrefixOf s.data

/-- `String.toLowerCase`, computed structurally (ASCII lowering). -/
def strLower (s : String) : String := String.mk (s.data.map Char.toLower)

/-- `String.trim`, computed structurally: strip whitespace from both
ends. -/
def trimList (s : List Char) : List Char :=
  ((s.dropWhile Char.isWhitespace).reverse.dropWhile Char.isWhitespace).reverse

/-- Truthiness of a JavaScript string-or-undefined (`undefined` and the
empty string are falsy). -/
def jsTruthy : Option String → Bool
  | some v => v != ""
  | none => false

/-- Response headers as an association list; Node lowercases incoming
header names, and `Map.get` is exact-key lookup. -/
abbrev Headers := List (String × String)

/-- `headers.get(name)`. -/
def hget (hs : Headers) (name : String) : Option String :=
  (List.find? (fun kv => kv.1 == name) hs).map (·.2)

/-- `Math.round` for the non-negative finite values produced by the score
computation: round half up. -/
def mathRound (q : ℚ) : Int := Int.floor (q + 1/2)

/-! ### URL model

`website-analyzer.js` relies on the WHATWG `new URL` constructor for
`protocol`, `hostname`, `pathname` and `search`.  Modelled from the
source's use: a simplified absolute-URL parser accepting
`scheme://host[/path][?query][#fragment]`; parse failure models the
constructor throwing. -/

structure JsUrl where
  protocol : String
  hostname : String
  pathname : String
  search : String
  deriving DecidableEq, Repr

/-- Split at the first character satisfying `p`: `(before, from-there)`. -/
def splitAtFirst (p : Char → Bool) : List Char → List Char × List Char
  | [] => ([], [])
  | c :: s =>
    if p c then ([], c :: s)
    else
      let (a, b) := splitAtFirst p s
      (c :: a, b)

/-- Simplified model of `new URL(s)` for absolute URLs. -/
def parseUrl (s : String) : Except String JsUrl :=
  let cs := s.data
  let (schemePart, rest) := splitAtFirst (fun c => c == ':') cs
  if schemePart.isEmpty then .error ("Invalid URL: " ++ s)
  else if ("://".data).isPrefixOf rest then
    let afterScheme := rest.drop 3
    let (hostPart, tail) := splitAtFirst (fun c => c == '/' || c == '?' || c == '#') afterScheme
    if hostPart.isEmpty then .error ("Invalid URL: " ++ s)
    else
      let (pathPart, tail2) := splitAtFirst (fun c => c == '?' || c == '#') tail
      let (searchPart, _) := splitAtFirst (fun c => c == '#') tail2
      .ok { protocol := String.mk (schemePart.map Char.toLower) ++ ":"
            hostname := String.mk (hostPart.map Char.toLower)
            pathname := if pathPart.isEmpty then "/" else String.mk pathPart
            search := String.mk searchPart }
  else .error ("Invalid URL: " ++ s)

/-- Simplified model of `new URL(loc, base).href` as used for the redirect
`Location` and for script `src` resolution: an absolute location is used
as-is, a scheme-relative one takes the base protocol, anything else keeps
the base origin. -/
def resolveUrl (loc base : String) : String :=
  if jsIncludes loc "://" then loc
  else
    match parseUrl base with
    | .ok u =>
      if ("//".data).isPrefixOf loc.data then u.protocol ++ loc
      else if ("/".data).isPrefixOf loc.data then u.protocol ++ "//" ++ u.hostname ++ loc
      else u.protocol ++ "//" ++ u.hostname ++ "/" ++ loc
    | .error _ => loc

/-! ### Rule catalog

`web-design-rules.js` exports an ordered array of rule objects.  The
analyzer reads only `id`, `category`, `severity` and `source` (plus
presentation fields that do not influence any verdict), so `Rule` embeds
that projection. -/

structure Rule where
  id : String
  category : String
  severity : String
  source : String
  deriving DecidableEq, Repr

/-- The catalog of `web-design-rules.js`, in array order. -/
def webDesignRules : List Rule := [
  ⟨"wcag-001", "Accessibility (WCAG 2.1)", "error", "WCAG 2.1 Success Criterion 1.1.1"⟩,
  ⟨"wcag-002", "Accessibility (WCAG 2.1)", "error", "WCAG 2.1 Success Criterion 1.4.3"⟩,
  ⟨"wcag-003", "Accessibility (WCAG 2.1)", "error", "WCAG 2.1 Success Criterion 2.1.1"⟩,
  ⟨"wcag-004", "Accessibility (WCAG 2.1)", "warning", "WCAG 2.1 Success Criterion 1.3.1"⟩,
  ⟨"wcag-005", "Accessibility (WCAG 2.1)", "warning", "WCAG 2.1 Success Criterion 2.4.7"⟩,
  ⟨"wcag-006", "Accessibility (WCAG 2.1)", "warning", "WCAG 2.1 Success Criterion 4.1.2"⟩,
  ⟨"cwv-001", "Performance (Core Web Vitals)", "error", "Google Core Web Vitals - LCP"⟩,
  ⟨"cwv-002", "Performance (Core Web Vitals)", "error", "Google Core Web Vitals - CLS"⟩,
  ⟨"cwv-003", "Performance (Core Web Vitals)", "warning", "Google Core Web Vitals - FID/INP"⟩,
  ⟨"perf-001", "Performance (Core Web Vitals)", "warning", "Google PageSpeed Insights"⟩,
  ⟨"perf-002", "Performance (Core Web Vitals)", "warning", "Google Web Fundamentals"⟩,
  ⟨"perf-003", "Performance (Core Web Vitals)", "warning", "Google Web.dev"⟩,
  ⟨"seo-001", "SEO (Search Engine Optimization)", "error", "Google Search Central"⟩,
  ⟨"seo-002", "SEO (Search Engine Optimization)", "warning", "Google Search Central"⟩,
  ⟨"seo-003", "SEO (Search Engine Optimization)", "warning", "MDN Web Docs"⟩,
  ⟨"seo-004", "SEO (Search Engine Optimization)", "info", "Schema.org"⟩,
  ⟨"seo-005", "SEO (Search Engine Optimization)", "info", "Google Search Central"⟩,
  ⟨"seo-006", "SEO (Search Engine Optimization)", "warning", "Google Search Central"⟩,
  ⟨"seo-007", "SEO (Search Engine Optimization)", "info", "Google Search Central"⟩,
  ⟨"sec-001", "Security", "error", "OWASP Top 10"⟩,
  ⟨"sec-002", "Security", "warning", "MDN Web Security"⟩,
  ⟨"sec-003", "Security", "warning", "OWASP Secure Headers Project"⟩,
  ⟨"sec-004", "Security", "error", "OWASP Input Validation"⟩,
  ⟨"html-001", "HTML Best Practices", "warning", "W3C HTML5 Specification"⟩,
  ⟨"html-002", "HTML Best Practices", "error", "W3C HTML5 Specification"⟩,
  ⟨"html-003", "HTML Best Practices", "error", "MDN Web Docs"⟩,
  ⟨"css-001", "CSS Best Practices", "info", "Google Web Fundamentals"⟩,
  ⟨"css-002", "CSS Best Practices", "warning", "Google Web.dev"⟩,
  ⟨"css-003", "CSS Best Practices", "error", "Google Mobile-Friendly Test"⟩,
  ⟨"js-001", "JavaScript Best Practices", "warning", "Google Lighthouse"⟩,
  ⟨"js-002", "JavaScript Best Practices", "warning", "MDN Web Docs"⟩,
  ⟨"js-003", "JavaScript Best Practices", "warning", "MDN Web Docs"⟩,
  ⟨"mobile-001", "Mobile Optimization", "warning", "Google Web.dev"⟩,
  ⟨"mobile-002", "Mobile Optimization", "warning", "Google Search Central"⟩,
  ⟨"mobile-003", "Mobile Optimization", "warning", "Google Web.dev"⟩,
  ⟨"ux-001", "User Experience", "warning", "Nielsen Norman Group"⟩,
  ⟨"ux-002", "User Experience", "warning", "Baymard Institute"⟩,
  ⟨"ux-003", "User Experience", "info", "Material Design Guidelines"⟩,
  ⟨"content-001", "Content Quality", "info", "Nielsen Norman Group"⟩,
  ⟨"content-002", "Content Quality", "info", "E-A-T Guidelines (Google)"⟩]

/-- Rule selection, `website-analyzer.js` lines 14-22: a falsy or `"all"`
filter keeps the whole catalog, otherwise a rule is kept when its id
starts with the filter or its source citation contains the filter
case-insensitively.  `undefined`/missing filters are modelled by `""`
(both are falsy). -/
def selectRules (sourceFilter : String) : List Rule :=
  if sourceFilter != "" && sourceFilter != "all" then
    webDesignRules.filter (fun rule =>
      jsStartsWith rule.id sourceFilter ||
      jsIncludes (strLower rule.source) (strLower sourceFilter))
  else webDesignRules

/-! ### Rule predicates

One definition per `case` body of the `switch` in `performRuleCheck`
(`website-analyzer.js` lines 181-1373), in source order, each embedding
the `passed` field of the returned verdict.  Ids that occur in two
different `case` positions get a `First`/`Second` suffix in position
order. -/

/-- `[^)]`. -/
def notRParen (c : Char) : Bool := c != ')'

/-- `/<img[^>]*>/gi`. -/
def imgTagToks : List (List Tok) := [[tlit "<img", .many0 notGt, tlit ">"]]

/-- `/<link[^>]+rel=["']stylesheet["']/gi`. -/
def linkStylesheetToks : List (List Tok) :=
  [[tlit "<link", .one notGt, .many0 notGt, tlit "rel=", .one isQuote,
    tlit "stylesheet", .one isQuote]]

/-- `sec-001` (line 183): the site URL uses the https scheme. -/
def checkSec001 (siteUrl : String) : Bool := jsStartsWith siteUrl "https://"

/-- `html-002`, first occurrence (line 193): `/<!doctype\s+html/i`. -/
def checkHtml002First (html : List Char) : Bool :=
  reTest [[tlit "<!doctype", .one isWs, .many0 isWs, tlit "html"]] html

/-- `html-003` (line 203): charset and viewport meta tags both present. -/
def checkHtml003 (html : List Char) : Bool :=
  let hasCharset := reTest [[tlit "<meta", .one notGt, .many0 notGt, tlit "charset="]] html
  let hasViewport := reTest [[tlit "<meta", .one notGt, .many0 notGt, tlit "name=",
    .one isQuote, tlit "viewport", .one isQuote]] html
  hasCharset && hasViewport

/-- `seo-001` (line 221): `/<title>([^<]+)<\/title>/i` whose trimmed
capture is non-empty and 10-60 characters long. -/
def checkSeo001 (html : List Char) : Bool :=
  match reFirstCapture [[tlit "<title>", .grp notLt, tlit "</title>"]] html with
  | some cap =>
      let len := (trimList cap).length
      decide (0 < len) && (decide (10 ≤ len) && decide (len ≤ 60))
  | none => false

/-- `seo-002` (line 241): description meta content non-empty and 120-160
characters after trimming. -/
def checkSeo002 (html : List Char) : Bool :=
  match reFirstCapture [[tlit "<meta", .one notGt, .many0 notGt, tlit "name=", .one isQuote,
      tlit "description", .one isQuote, .one notGt, .many0 notGt, tlit "content=",
      .one isQuote, .grp notQuote, .one isQuote]] html with
  | some cap =>
      let len := (trimList cap).length
      decide (0 < len) && (decide (120 ≤ len) && decide (len ≤ 160))
  | none => false

/-- `wcag-001` (line 261): no image, or every `<img>` tag carries `alt=`. -/
def checkWcag001 (html : List Char) : Bool :=
  let imgTags := reSlices imgTagToks html
  let imgsWithoutAlt := imgTags.filter (fun img =>
    !reTest [[tlit "<img", .one notGt, .many0 notGt, tlit "alt="]] img)
  imgTags.length == 0 || (imgsWithoutAlt.length == 0 && decide (0 < imgTags.length))

/-- `wcag-004` (line 283): at least two of nav/main/header/footer. -/
def checkWcag004 (html : List Char) : Bool :=
  let semanticCount := ([reTest [[tlit "<nav"]] html, reTest [[tlit "<main"]] html,
    reTest [[tlit "<header"]] html, reTest [[tlit "<footer"]] html].filter (fun b => b)).length
  decide (2 ≤ semanticCount)

/-- `sec-002`/`sec-003`, first occurrence (shared case group, line 302):
any of CSP, X-Content-Type-Options or X-Frame-Options present. -/
def checkSecurityHeadersCombined (headers : Headers) : Bool :=
  jsTruthy (hget headers "content-security-policy") ||
  jsTruthy (hget headers "x-content-type-options") ||
  jsTruthy (hget headers "x-frame-options")

/-- The `lightColors` alternatives of `wcag-002`
(`#fff|#ffffff|white|#f[0-9a-f]{2,5}|rgb\(25[0-5],\s*25[0-5],\s*25[0-5]\)`). -/
def lightColorAlts : List (List Tok) :=
  [[tlit "#fff"], [tlit "#ffffff"], [tlit "white"],
   [tlit "#f", .one isHex, .one isHex, .opt isHex, .opt isHex, .opt isHex],
   [tlit "rgb(25", .one isDigit05, tlit ",", .many0 isWs, tlit "25", .one isDigit05,
    tlit ",", .many0 isWs, tlit "25", .one isDigit05, tlit ")"]]

/-- `<prop>[^:]*:\s*(<light color>)` alternatives for `wcag-002`. -/
def colorPropAlts (prop : String) : List (List Tok) :=
  lightColorAlts.map (fun alt => [tlit prop, .many0 notColon, tlit ":", .many0 isWs] ++ alt)

/-- `wcag-002` (line 317): no light background together with light text. -/
def checkWcag002 (html : List Char) : Bool :=
  let hasLightBg := reTest (colorPropAlts "background") html
  let hasLightText := reTest (colorPropAlts "color") html
  !(hasLightBg && hasLightText)

/-- `wcag-003` (line 339): no `tabindex="-1"`, or tabindex on more than
half of the interactive elements. -/
def checkWcag003 (html : List Char) : Bool :=
  let interactiveElements := countRe
    [[tlit "<button", .many0 notGt, tlit ">"], [tlit "<a", .many0 notGt, tlit ">"],
     [tlit "<input", .many0 notGt, tlit ">"], [tlit "<select", .many0 notGt, tlit ">"],
     [tlit "<textarea", .many0 notGt, tlit ">"]] html
  let elementsWithTabindex := countRe [[tlit "tabindex="]] html
  let negativeTabindex := countRe [[tlit "tabindex=", .one isQuote, tlit "-1", .one isQuote]] html
  negativeTabindex == 0 || decide (interactiveElements < 2 * elementsWithTabindex)

/-- `seo-004` (line 356): JSON-LD script tag or microdata markers. -/
def checkSeo004 (html : List Char) : Bool :=
  let hasJsonLd := reTest [[tlit "<script", .one notGt, .many0 notGt, tlit "type=",
    .one isQuote, tlit "application/ld+json", .one isQuote]] html
  let hasMicrodata := reTest [[tlit "itemscope"], [tlit "itemprop"]] html
  hasJsonLd || hasMicrodata

/-- `css-002` (line 372): style/font preload, or both inline and external
styles. -/
def checkCss002 (html : List Char) : Bool :=
  let hasPreload := reTest
    [[tlit "<link", .one notGt, .many0 notGt, tlit "rel=", .one isQuote, tlit "preload",
      .one isQuote, .one notGt, .many0 notGt, tlit "as=", .one isQuote, tlit "style", .one isQuote],
     [tlit "<link", .one notGt, .many0 notGt, tlit "rel=", .one isQuote, tlit "preload",
      .one isQuote, .one notGt, .many0 notGt, tlit "as=", .one isQuote, tlit "font", .one isQuote]] html
  let inlineStyles := countRe [[tlit "<style", .many0 notGt, tlit ">"]] html
  let externalStyles := countRe linkStylesheetToks html
  hasPreload || (decide (0 < inlineStyles) && decide (0 < externalStyles))

/-- `js-003` (line 389): try/catch block or an error handler. -/
def checkJs003 (html : List Char) : Bool :=
  let hasTryCatch := reTest [[tlit "try", .many0 isWs, tlit "\x7b", .many0L anyChar,
    tlit "\x7d", .many0 isWs, tlit "catch"]] html
  let hasErrorHandler := reTest [[tlit ".catch("], [tlit "onerror"],
    [tlit "addEventListener(", .one isQuote, tlit "error", .one isQuote],
    [tlit "window.onerror"]] html
  hasTryCatch || hasErrorHandler

/-- `mobile-003` (line 405): HTML under 500000 characters. -/
def checkMobile003 (html : List Char) : Bool := decide (html.length < 500000)

/-- Length of the maximal `\w` run at the head of the list. -/
def wordRunLen : List Char → Nat
  | [] => 0
  | c :: s => if wordChar c then wordRunLen s + 1 else 0

/-- `/(\w+)\.(\w+)[^=]*\1\.(\w+)/i` of `airbnb-004`: some word `c` is
followed by a dot access and, after non-`=` characters, by another dot
access on the same `c` (the backreference). -/
def hasRepetitiveDot (s : List Char) : Bool :=
  s.tails.any (fun t =>
    (List.range (wordRunLen t)).any (fun k0 =>
      let cap := t.take (k0 + 1)
      (cmatch ([Tok.lit ['.'], .one wordChar, .many0 wordChar, .many0 notEq,
        Tok.lit (cap ++ ['.']), .one wordChar]) (t.drop (k0 + 1))).isSome))

/-- `airbnb-004` (line 418): destructuring used, or no repetitive dot
access. -/
def checkAirbnb004 (html : List Char) : Bool :=
  let hasDestructuring := reTest
    [[tlit "const", .many0 isWs, tlit "\x7b", .one notRBrace, .many0 notRBrace,
      tlit "\x7d", .many0 isWs, tlit "="],
     [tlit "let", .many0 isWs, tlit "\x7b", .one notRBrace, .many0 notRBrace,
      tlit "\x7d", .many0 isWs, tlit "="]] html
  hasDestructuring || !hasRepetitiveDot html

/-- `airbnb-005` (line 429): default parameter syntax, or no `||`
fallback pattern. -/
def checkAirbnb005 (html : List Char) : Bool :=
  let hasDefaultParams := reTest
    [[tlit "function", .one isWs, .many0 isWs, .one wordChar, .many0 wordChar, .many0 isWs,
      tlit "(", .many0 notRParen, tlit "=", .many0 notRParen, tlit ")"],
     [tlit "=", .many0 isWs, tlit "(", .many0 notRParen, tlit "=", .many0 notRParen,
      tlit ")", .many0 isWs, tlit "=>"]] html
  let hasFallbackPattern := reTest [[tlit "||"]] html
  hasDefaultParams || !hasFallbackPattern

/-- `googlejs-002` (line 440): JSDoc comments present, or no functions. -/
def checkGooglejs002 (html : List Char) : Bool :=
  let hasJsDoc := reTest
    [[tlit "/**", .many0L anyChar, tlit "@param", .many0L anyChar, tlit "*/"],
     [tlit "/**", .many0L anyChar, tlit "@return", .many0L anyChar, tlit "*/"],
     [tlit "/**", .many0L anyChar, tlit "@type", .many0L anyChar, tlit "*/"]] html
  let hasFunctions := reTest
    [[tlit "function", .one isWs, .many0 isWs, .one wordChar, .many0 wordChar, .many0 isWs, tlit "("],
     [tlit "const", .one isWs, .many0 isWs, .one wordChar, .many0 wordChar, .many0 isWs,
      tlit "=", .many0 isWs, tlit "(", .many0 notRParen, tlit ")", .many0 isWs, tlit "=>"]] html
  hasJsDoc || !hasFunctions

/-- `googlejs-003` (line 456): no loose equality, or strict equality also
used. -/
def checkGooglejs003 (html : List Char) : Bool :=
  let hasLooseEquality := reTest
    [[.one (fun c => c != '=' && c != '!'), tlit "==", .one notEq],
     [.one (fun c => c != '!'), tlit "!=", .one notEq]] html
  let hasStrictEquality := reTest [[tlit "==="], [tlit "!=="]] html
  !hasLooseEquality || hasStrictEquality

/-- `/<script[\s\S]*?<\/script>/gi` (script element slices including the
open tag, lazy body). -/
def scriptElemToks : List (List Tok) := [[tlit "<script", .many0L anyChar, tlit "</script>"]]

/-- `eslint-001` (line 467): little inline script, or few variable
declarations. -/
def checkEslint001 (html : List Char) : Bool :=
  let varDeclarations := bCount
    [[tlit "const", .one isWs, .many0 isWs, .one wordChar, .many0 wordChar, .many0 isWs, tlit "="],
     [tlit "let", .one isWs, .many0 isWs, .one wordChar, .many0 wordChar, .many0 isWs, tlit "="],
     [tlit "var", .one isWs, .many0 isWs, .one wordChar, .many0 wordChar, .many0 isWs, tlit "="]] html
  let scriptSize := ((reSlices scriptElemToks html).map List.length).sum
  decide (scriptSize < 10000) || decide (varDeclarations < 50)

/-- `[^{}]`. -/
def notBrace (c : Char) : Bool := c != '\x7b' && c != '\x7d'

/-- `eslint-004` (line 478): no object literal with duplicate keys. -/
def checkEslint004 (html : List Char) : Bool :=
  let objectLiterals := reSlices [[tlit "\x7b", .many0 notBrace, tlit "\x7d"]] html
  let hasDuplicates := objectLiterals.any (fun obj =>
    let keys := reSlices [[.one wordChar, .many0 wordChar, .many0 isWs, tlit ":"]] obj
    keys.dedup.length != keys.length)
  !hasDuplicates

/-- `lighthouse-003` (line 494): HTML under 500000 characters. -/
def checkLighthouse003 (html : List Char) : Bool := decide (html.length < 500000)

/-- `lighthouse-004` (line 505): no touch/wheel listeners, or passive
option used. -/
def checkLighthouse004 (html : List Char) : Bool :=
  let hasTouchEvents := reTest [[tlit "addEventListener", .many0 isWs, tlit "(",
    .many0 isWs, .one isQuote, tlit "touch"]] html
  let hasWheelEvents := reTest [[tlit "addEventListener", .many0 isWs, tlit "(",
    .many0 isWs, .one isQuote, tlit "wheel"]] html
  let hasPassive := reTest [[tlit "\x7b", .many0 isWs, tlit "passive", .many0 isWs,
    tlit ":", .many0 isWs, tlit "true", .many0 isWs, tlit "\x7d"]] html
  !(hasTouchEvents || hasWheelEvents) || hasPassive

/-- `pwa-003` (line 517): https required for PWA. -/
def checkPwa003 (siteUrl : String) : Bool := jsStartsWith siteUrl "https://"

/-- `pwa-004` (line 527): offline page or service worker mentioned. -/
def checkPwa004 (html : List Char) : Bool :=
  let hasServiceWorker := reTest [[tlit "navigator.serviceWorker"]] html
  let hasOfflinePage := reTest [[tlit "offline.html"], [tlit "offline-fallback"]] html
  hasOfflinePage || hasServiceWorker

/-- `a11y-003` (line 538): a skip-navigation link. -/
def checkA11y003 (html : List Char) : Bool :=
  reTest ((["main", "content", "skip"].map (fun a =>
    (["skip", "skip to", "jump to"].map (fun t =>
      [tlit "<a", .many0 notGt, tlit "href=", .one isQuote, tlit ("#" ++ a), .one isQuote,
       .many0 notGt, tlit ">", tlit t])))).flatten) html

/-- `webaim-001` (line 554): no audio/video, or a transcript mention. -/
def checkWebaim001 (html : List Char) : Bool :=
  let hasAudio := reTest [[tlit "<audio", .many0 notGt, tlit ">"]] html
  let hasVideo := reTest [[tlit "<video", .many0 notGt, tlit ">"]] html
  let hasTranscript := reTest [[tlit "transcript"], [tlit "transkript"], [tlit "текст"]] html
  !(hasAudio || hasVideo) || hasTranscript

/-- `webaim-002` (line 566): few links, or spacing CSS present. -/
def checkWebaim002 (html : List Char) : Bool :=
  let links := countRe [[tlit "<a", .many0 notGt, tlit ">"]] html
  let hasPadding := reTest [[tlit "padding"], [tlit "margin"]] html
  decide (links < 10) || hasPadding

/-- `webaim-003` (line 578): no div-as-button, or real buttons present. -/
def checkWebaim003 (html : List Char) : Bool :=
  let hasDivButtons := reTest [[tlit "<div", .many0 notGt, tlit "onclick="]] html
  let hasProperButtons := reTest [[tlit "<button", .many0 notGt, tlit ">"]] html
  !hasDivButtons || hasProperButtons

/-- `schema-002` (line 590): some JSON-LD script mentions a specific
Schema.org type (case-sensitive inner test). -/
def checkSchema002 (html : List Char) : Bool :=
  let jsonLdScripts := reSlices [[tlit "<script", .one notGt, .many0 notGt, tlit "type=",
    .one isQuote, tlit "application/ld+json", .one isQuote, .many0 notGt, tlit ">",
    .many0L anyChar, tlit "</script>"]] html
  jsonLdScripts.any (fun script =>
    reTest [[tcs "Article"], [tcs "Product"], [tcs "Recipe"], [tcs "Event"],
      [tcs "Organization"], [tcs "Person"], [tcs "Review"], [tcs "FAQ"],
      [tcs "JobPosting"], [tcs "Course"]] script)

/-- `og-002` (line 605): image dimensions given, or no og:image at all. -/
def checkOg002 (html : List Char) : Bool :=
  let ogImage := reFirstCapture [[tlit "<meta", .one notGt, .many0 notGt, tlit "property=",
    .one isQuote, tlit "og:image", .one isQuote, .one notGt, .many0 notGt, tlit "content=",
    .one isQuote, .grp notQuote, .one isQuote]] html
  let hasOgImageDimensions := reTest
    [[tlit "<meta", .one notGt, .many0 notGt, tlit "property=", .one isQuote,
      tlit "og:image:width", .one isQuote],
     [tlit "<meta", .one notGt, .many0 notGt, tlit "property=", .one isQuote,
      tlit "og:image:height", .one isQuote]] html
  hasOgImageDimensions || ogImage.isNone

/-- `httparch-001` (line 619): no third-party script, or more than 80%
async/defer.  Host comparison uses the simplified URL model. -/
def checkHttparch001 (html : List Char) (siteUrl : String) : Bool :=
  let scriptSrcs := reMatchList [[tlit "<script", .one notGt, .many0 notGt, tlit "src=",
    .one isQuote, .grp notQuote, .one isQuote]] html
  let thirdPartyScripts := (scriptSrcs.filter (fun m =>
    let url := String.mk (m.2.getD [])
    !(jsStartsWith url "/" || jsStartsWith url "./") &&
      (match parseUrl siteUrl, parseUrl (resolveUrl url siteUrl) with
       | .ok a, .ok b => a.hostname != b.hostname
       | _, _ => false))).length
  let asyncThirdParty := (scriptSrcs.filter (fun m =>
    reTest [[tcs "async"], [tcs "defer"]] m.1)).length
  thirdPartyScripts == 0 || decide (4 * thirdPartyScripts < 5 * asyncThirdParty)

/-- `httparch-002` (line 634): fewer than 50 counted requests. -/
def checkHttparch002 (html : List Char) : Bool :=
  let images := countRe imgTagToks html
  let scripts := countRe [[tlit "<script", .many0 notGt, tlit "src="]] html
  let styles := countRe linkStylesheetToks html
  let fonts := countRe [[tlit "<link", .one notGt, .many0 notGt, tlit "rel=", .one isQuote,
    tlit "preload", .one isQuote, .one notGt, .many0 notGt, tlit "as=", .one isQuote,
    tlit "font", .one isQuote]] html
  decide (images + scripts + styles + fonts < 50)

/-- Digit run to a natural number (`parseInt` on a digit capture). -/
def digitsToNat (ds : List Char) : Nat :=
  ds.foldl (fun acc c => acc * 10 + (c.toNat - '0'.toNat)) 0

/-- `carbon-001` (line 648): under 30% of spacing declarations off the
8px scale (the `padding` alternative captures no digits, parsed as 0). -/
def checkCarbon001 (html : List Char) : Bool :=
  let spacingValues := (reMatchList
    [[tlit "padding"], [tlit "margin:", .many0 isWs, .grp isDigitC, tlit "px"]] html).map
    (fun m => match m.2 with | some d => digitsToNat d | none => 0)
  let irregularSpacing := (spacingValues.filter (fun v => v % 8 != 0 && decide (8 < v))).length
  decide (10 * irregularSpacing < 3 * spacingValues.length)

/-- `carbon-002` (line 662): contrast mentioned in CSS. -/
def checkCarbon002 (html : List Char) : Bool :=
  reTest [[tlit "contrast"], [tlit "color-contrast"]] html

/-- `material-001` (line 673): shadows or an elevation system. -/
def checkMaterial001 (html : List Char) : Bool :=
  let hasShadow := reTest [[tlit "box-shadow:"]] html
  let hasElevation := reTest [[tlit "elevation"], [tlit "shadow-"]] html
  hasShadow || hasElevation

/-- `material-002` (line 685): no buttons, or ripple feedback present. -/
def checkMaterial002 (html : List Char) : Bool :=
  let hasRipple := reTest [[tlit "ripple"], [tlit "wave"], [tlit "touch-feedback"]] html
  let hasButtons := reTest [[tlit "<button", .many0 notGt, tlit ">"]] html
  !hasButtons || hasRipple

/-- `seo-003`, first occurrence (line 696): exactly one `<h1>` (counted by
the bare literal `/<h1/gi`) and no skipped level. -/
def checkSeo003First (html : List Char) : Bool :=
  let h1Count := countRe [[tlit "<h1"]] html
  let h2Count := countRe [[tlit "<h2", .many0 notGt, tlit ">"]] html
  let h3Count := countRe [[tlit "<h3", .many0 notGt, tlit ">"]] html
  let skipsLevels := decide (0 < h3Count) && h2Count == 0
  h1Count == 1 && !skipsLevels

/-- `eslint-002` (line 714): no console statements. -/
def checkEslint002 (html : List Char) : Bool :=
  !(reTest [[tlit "console.log("], [tlit "console.error("], [tlit "console.warn("],
    [tlit "console.info("], [tlit "console.debug("]] html)

/-- `eslint-003` (line 729): no `debugger;` statements (`\b`-anchored). -/
def checkEslint003 (html : List Char) : Bool :=
  !(bTest [[tlit "debugger", .many0 isWs, tlit ";"]] html)

/-- `googlejs-001` (line 744): no inline scripts, or semicolons used in
some inline script. -/
def checkGooglejs001 (html : List Char) : Bool :=
  let scriptTags := reSlices [[tlit "<script", .many0 notGt, tlit ">", .many0L anyChar,
    tlit "</script>"]] html
  let inlineScripts := scriptTags.filter (fun s =>
    !reTest [[tlit "<script", .one notGt, .many0 notGt, tlit "src="]] s)
  let hasSemicolons := inlineScripts.any (fun s => listContains s [';'])
  inlineScripts.length == 0 || hasSemicolons

/-- `googlejs-004` (line 758): no `var` declarations (`\b`-anchored). -/
def checkGooglejs004 (html : List Char) : Bool :=
  !(bTest [[tlit "var", .one isWs, .many0 isWs, .one wordChar, .many0 wordChar,
    .many0 isWs, tlit "="]] html)

/-- The character following the scan position ends a `\b` boundary. -/
def endBoundary : List Char → Bool
  | [] => true
  | c :: _ => !wordChar c

/-- The negative-lookahead body `[^>]*\b(?:defer|async)\b` of the
render-blocking script pattern, scanned from the position after
`<script` given the previous character. -/
def deferAsyncAhead : Option Char → List Char → Bool
  | _, [] => false
  | prev, c :: s' =>
      (boundaryOk prev &&
        ((lcPref "defer".data (c :: s') && endBoundary ((c :: s').drop 5)) ||
         (lcPref "async".data (c :: s') && endBoundary ((c :: s').drop 5)))) ||
      (c != '>' && deferAsyncAhead (some c) s')

/-- One position of
`/<script(?![^>]*\b(?:defer|async)\b)[^>]*src=["'][^"']+["'][^>]*>/gi`. -/
def blockingScriptAt (t : List Char) : Bool :=
  lcPref "<script".data t &&
    (let rest := t.drop 7
     !deferAsyncAhead (some 't') rest &&
     (cmatch [.many0 notGt, tlit "src=", .one isQuote, .one notQuote, .many0 notQuote,
       .one isQuote, .many0 notGt, tlit ">"] rest).isSome)

/-- A render-blocking external script exists somewhere in the body. -/
def hasBlockingScript (html : List Char) : Bool := html.tails.any blockingScriptAt

/-- The negative-lookahead body `[^>]*\bmedia=["']print["']` of the
render-blocking stylesheet pattern (no `\b` is present in the source
pattern, it is a plain `[^>]*media=["']print["']`). -/
def mediaPrintAhead : List Char → Bool
  | [] => false
  | c :: s' =>
      (cmatch [tlit "media=", .one isQuote, tlit "print", .one isQuote] (c :: s')).isSome ||
      (c != '>' && mediaPrintAhead s')

/-- Scan of the `[^>]+` region after `<link` for
`rel=["']stylesheet["']` followed by the failed `media=print` lookahead
and a closing `>`. -/
def stylesheetRelScan : List Char → Bool
  | [] => false
  | c :: s' =>
      (match cmatch [tlit "rel=", .one isQuote, tlit "stylesheet", .one isQuote] (c :: s') with
       | some (_, rest) => !mediaPrintAhead rest && rest.contains '>'
       | none => false) ||
      (c != '>' && stylesheetRelScan s')

/-- One position of
`/<link[^>]+rel=["']stylesheet["'](?![^>]*\bmedia=["']print["'])[^>]*>/gi`. -/
def blockingStyleAt (t : List Char) : Bool :=
  lcPref "<link".data t &&
    (match t.drop 5 with
     | c :: s' => c != '>' && stylesheetRelScan (c :: s')
     | [] => false)

/-- A render-blocking stylesheet exists somewhere in the body. -/
def hasBlockingStyle (html : List Char) : Bool := html.tails.any blockingStyleAt

/-- `js-002`/`perf-003`/`lighthouse-002` (shared case group, line 770):
zero render-blocking scripts and stylesheets. -/
def checkRenderBlocking (html : List Char) : Bool :=
  !(hasBlockingScript html || hasBlockingStyle html)

/-- `perf-002`/`lighthouse-001` (shared case group, line 795): a modern
image format source and some lazy-loaded image. -/
def checkImageOptimization (html : List Char) : Bool :=
  let imgTags := reSlices imgTagToks html
  let hasWebP := reTest [[tlit "<source", .one notGt, .many0 notGt, tlit "type=",
    .one isQuote, tlit "image/webp", .one isQuote]] html
  let hasAVIF := reTest [[tlit "<source", .one notGt, .many0 notGt, tlit "type=",
    .one isQuote, tlit "image/avif", .one isQuote]] html
  let hasLazyLoad := imgTags.any (fun img =>
    reTest [[tlit "loading=", .one isQuote, tlit "lazy", .one isQuote]] img)
  (hasWebP || hasAVIF) && hasLazyLoad

/-- `/<link[^>]+rel=["']canonical["']/i`. -/
def canonicalToks : List (List Tok) :=
  [[tlit "<link", .one notGt, .many0 notGt, tlit "rel=", .one isQuote,
    tlit "canonical", .one isQuote]]

/-- `seo-006`, first occurrence (line 814): canonical link present. -/
def checkSeo006First (html : List Char) : Bool := reTest canonicalToks html

/-- `schema-001` (line 830): a JSON-LD script tag (with closing `>`). -/
def checkSchema001 (html : List Char) : Bool :=
  reTest [[tlit "<script", .one notGt, .many0 notGt, tlit "type=", .one isQuote,
    tlit "application/ld+json", .one isQuote, .many0 notGt, tlit ">"]] html

/-- `/<meta[^>]+property=["']<name>["']/i`. -/
def ogTagToks (name : String) : List (List Tok) :=
  [[tlit "<meta", .one notGt, .many0 notGt, tlit "property=", .one isQuote,
    tlit name, .one isQuote]]

/-- `og-001` (line 846): at least three of the four Open Graph tags. -/
def checkOg001 (html : List Char) : Bool :=
  let ogCount := ([reTest (ogTagToks "og:title") html, reTest (ogTagToks "og:description") html,
    reTest (ogTagToks "og:image") html, reTest (ogTagToks "og:url") html].filter
    (fun b => b)).length
  decide (3 ≤ ogCount)

/-- `/<meta[^>]+name=["']<name>["']/i`. -/
def twitterTagToks (name : String) : List (List Tok) :=
  [[tlit "<meta", .one notGt, .many0 notGt, tlit "name=", .one isQuote,
    tlit name, .one isQuote]]

/-- `og-003` (line 865): Twitter card and title tags present. -/
def checkOg003 (html : List Char) : Bool :=
  let hasTwitterCard := reTest (twitterTagToks "twitter:card") html
  let hasTwitterTitle := reTest (twitterTagToks "twitter:title") html
  hasTwitterCard && hasTwitterTitle

/-- `pwa-001` (line 882): a web app manifest link. -/
def checkPwa001 (html : List Char) : Bool :=
  reTest [[tlit "<link", .one notGt, .many0 notGt, tlit "rel=", .one isQuote,
    tlit "manifest", .one isQuote]] html

/-- `pwa-002` (line 898): service worker registration. -/
def checkPwa002 (html : List Char) : Bool :=
  reTest [[tlit "navigator.serviceWorker.register"]] html

/-- `wcag-006` (line 914): at least one ARIA labelling attribute. -/
def checkWcag006 (html : List Char) : Bool :=
  let ariaCount := ([reTest [[tlit "aria-label="]] html,
    reTest [[tlit "aria-labelledby="]] html,
    reTest [[tlit "aria-describedby="]] html].filter (fun b => b)).length
  decide (0 < ariaCount)

/-- `wcag-005` (line 932): `:focus { outline: none` not present. -/
def checkWcag005 (html : List Char) : Bool :=
  !(reTest [[tlit ":focus", .many0 isWs, tlit "\x7b", .many0 isWs, tlit "outline",
    .many0 isWs, tlit ":", .many0 isWs, tlit "none"]] html)

/-- `html-002`, second occurrence (line 948, unreachable in the source
`switch`): `/<html[^>]+lang=/i`. -/
def checkHtml002Second (html : List Char) : Bool :=
  reTest [[tlit "<html", .one notGt, .many0 notGt, tlit "lang="]] html

/-- Case-insensitive containment of a string in a character list. -/
def containsCI (sub : String) (s : List Char) : Bool :=
  s.tails.any (fun t => lcPref sub.data t)

/-- One position of `/<(div|p|span|a|button)[^>]*>(?![\s\S]*<\/\1>)/i`
for a fixed tag name. -/
def unclosedTagAt (tag : String) (t : List Char) : Bool :=
  lcPref ("<" ++ tag).data t &&
    (match cmatch [.many0 notGt, tlit ">"] (t.drop (tag.length + 1)) with
     | some (_, rest) => !containsCI ("</" ++ tag ++ ">") rest
     | none => false)

/-- `html-001` (line 960): no unclosed tag in the first 5000 characters
and no obsolete tag anywhere. -/
def checkHtml001 (html : List Char) : Bool :=
  let hasUnclosedTags := (html.take 5000).tails.any (fun t =>
    ["div", "p", "span", "a", "button"].any (fun tag => unclosedTagAt tag t))
  let hasObsoleteTags := reTest [[tlit "<font"], [tlit "<center"], [tlit "<marquee"],
    [tlit "<blink"]] html
  !hasUnclosedTags && !hasObsoleteTags

/-- `css-003` (line 978): media queries and a viewport meta tag. -/
def checkCss003 (html : List Char) : Bool :=
  let hasMediaQuery := reTest [[tlit "@media"]] html
  let hasViewport := reTest [[tlit "<meta", .one notGt, .many0 notGt, tlit "name=",
    .one isQuote, tlit "viewport", .one isQuote]] html
  hasMediaQuery && hasViewport

/-- `css-001` (line 994): external styles, at most one inline style
element, under ten inline style attributes. -/
def checkCss001 (html : List Char) : Bool :=
  let inlineStyles := countRe [[tlit "<style", .many0 notGt, tlit ">"]] html
  let externalStyles := countRe linkStylesheetToks html
  let inlineStyleAttrs := countRe [[.one isWs, tlit "style="]] html
  decide (0 < externalStyles) && decide (inlineStyles ≤ 1) && decide (inlineStyleAttrs < 10)

/-- `a11y-002` (line 1011): no inputs, or at least 80% with labels. -/
def checkA11y002 (html : List Char) : Bool :=
  let inputs := countRe [[tlit "<input", .many0 notGt, tlit ">"]] html
  let inputsWithLabels := countRe [[tlit "<label", .many0 notGt, tlit "for=", .one isQuote,
    .one notQuote, .many0 notQuote, .one isQuote, .many0 notGt, tlit ">"]] html
  inputs == 0 || decide (4 * inputs ≤ 5 * inputsWithLabels)

/-- `a11y-001` (line 1028): zero generic link texts. -/
def checkA11y001 (html : List Char) : Bool :=
  let genericLinks := countRe (["click here", "here", "more", "read more", "link"].map
    (fun w => [tlit "<a", .many0 notGt, tlit ">", .many0 isWs, tlit w, .many0 isWs,
      tlit "</a>"])) html
  genericLinks == 0

/-- `mobile-001` (line 1044): fewer than five font sizes under 14px. -/
def checkMobile001 (html : List Char) : Bool :=
  let smallButtons := reMatchList [[tlit "font-size:", .many0 isWs, .grp isDigitC,
    tlit "px"]] html
  let verySmallFonts := (smallButtons.filter (fun m =>
    decide (digitsToNat (m.2.getD []) < 14))).length
  decide (verySmallFonts < 5)

/-- `mobile-002` (line 1061): no popup indicator, or `display: none`. -/
def checkMobile002 (html : List Char) : Bool :=
  let hasPopup := reTest [[tlit "modal"], [tlit "popup"], [tlit "overlay"],
    [tlit "interstitial"]] html
  let hasDisplayNone := reTest [[tlit "display:", .many0 isWs, tlit "none"]] html
  !hasPopup || hasDisplayNone

/-- `seo-006`, second occurrence (line 1074, unreachable in the source
`switch`): canonical link present. -/
def checkSeo006Second (html : List Char) : Bool := reTest canonicalToks html

/-- `seo-005` (line 1086): the page mentions a sitemap. -/
def checkSeo005 (html : List Char) : Bool := reTest [[tlit "sitemap"]] html

/-- `seo-003`, second occurrence (line 1103, unreachable in the source
`switch`): exactly one `<h1>` counted by `/<h1[^>]*>/gi` and no skipped
level. -/
def checkSeo003Second (html : List Char) : Bool :=
  let h1Count := countRe [[tlit "<h1", .many0 notGt, tlit ">"]] html
  let h2Count := countRe [[tlit "<h2", .many0 notGt, tlit ">"]] html
  let h3Count := countRe [[tlit "<h3", .many0 notGt, tlit ">"]] html
  let skipsLevels := decide (0 < h3Count) && h2Count == 0
  h1Count == 1 && !skipsLevels

/-- `seo-007` (line 1116): URL path without underscores or uppercase,
under 100 characters (the parse failure branch is unreachable after a
successful fetch). -/
def checkSeo007 (siteUrl : String) : Bool :=
  match parseUrl siteUrl with
  | .ok u =>
      let pathname := u.pathname.data
      !(pathname.contains '_') && !(pathname.any (fun c => 'A' ≤ c && c ≤ 'Z')) &&
        decide (pathname.length < 100)
  | .error _ => false

/-- `sec-002`, second occurrence (line 1130, unreachable in the source
`switch`): CSP header present. -/
def checkSec002Second (headers : Headers) : Bool :=
  jsTruthy (hget headers "content-security-policy")

/-- `sec-003`, second occurrence (line 1142, unreachable in the source
`switch`): at least two of the three refined security headers. -/
def checkSec003Second (headers : Headers) : Bool :=
  let securityHeaderCount := ([jsTruthy (hget headers "x-content-type-options"),
    jsTruthy (hget headers "x-frame-options"),
    jsTruthy (hget headers "referrer-policy")].filter (fun b => b)).length
  decide (2 ≤ securityHeaderCount)

/-- `sec-004` (line 1155): no forms, or validation attributes present. -/
def checkSec004 (html : List Char) : Bool :=
  let hasForms := reTest [[tlit "<form", .many0 notGt, tlit ">"]] html
  let hasValidation := reTest [[tlit "required"], [tlit "pattern="], [tlit "minlength="],
    [tlit "maxlength="]] html
  !hasForms || hasValidation

/-- `airbnb-001` (line 1168): no `var`, and `const` or `let` used. -/
def checkAirbnb001 (html : List Char) : Bool :=
  let hasVar := bTest [[tlit "var", .one isWs, .many0 isWs]] html
  let hasConst := bTest [[tlit "const", .one isWs, .many0 isWs]] html
  let hasLet := bTest [[tlit "let", .one isWs, .many0 isWs]] html
  !hasVar && (hasConst || hasLet)

/-- `airbnb-002` (line 1185): arrow functions used, or no `function`
keyword. -/
def checkAirbnb002 (html : List Char) : Bool :=
  let hasArrowFn := reTest [[tlit "=>", .many0 isWs, tlit "\x7b"],
    [tlit "=>", .many0 isWs, .one notLBrace]] html
  let hasFunctionKeyword := reTest [[tlit "function", .many0 isWs, tlit "("]] html
  hasArrowFn || !hasFunctionKeyword

/-- `airbnb-003` (line 1201): template literals used, or no string
concatenation. -/
def checkAirbnb003 (html : List Char) : Bool :=
  let hasTemplateLiterals := reTest [[.one (· == btChar), .many0 (· != btChar),
    tlit "$\x7b", .one notRBrace, .many0 notRBrace, tlit "\x7d",
    .many0 (· != btChar), .one (· == btChar)]] html
  let hasStringConcat := reTest [[.one isQuote, .many0 notQuote, .one isQuote,
    .many0 isWs, tlit "+", .many0 isWs, .one isQuote, .many0 notQuote, .one isQuote]] html
  hasTemplateLiterals || !hasStringConcat

/-- `perf-001`/`cwv-001` (shared case group, line 1212): most images lazy
(or few images), and some deferred or async script. -/
def checkLazyLoading (html : List Char) : Bool :=
  let images := countRe imgTagToks html
  let lazyImages := countRe [[tlit "<img", .many0 notGt, tlit "loading=", .one isQuote,
    tlit "lazy", .one isQuote]] html
  let scriptsDefer := countRe [[tlit "<script", .many0 notGt, tlit "defer"]] html
  let scriptsAsync := countRe [[tlit "<script", .many0 notGt, tlit "async"]] html
  (decide (images < 2 * lazyImages) || decide (images < 5)) &&
    decide (0 < scriptsDefer + scriptsAsync)

/-- `cwv-002` (line 1226): no images, or more than 80% with explicit
dimensions. -/
def checkCwv002 (html : List Char) : Bool :=
  let imgsWithDimensions := countRe
    [[tlit "<img", .one notGt, .many0 notGt, tlit "width=", .many0 notGt, tlit ">"],
     [tlit "<img", .one notGt, .many0 notGt, tlit "height=", .many0 notGt, tlit ">"]] html
  let totalImages := countRe imgTagToks html
  totalImages == 0 || decide (4 * totalImages < 5 * imgsWithDimensions)

/-- The `(?![^>]*src=)` lookahead region scan for inline scripts. -/
def srcAhead : List Char → Bool
  | [] => false
  | c :: s' => lcPref "src=".data (c :: s') || (c != '>' && srcAhead s')

/-- Count of `/<script(?![^>]*src=)[^>]*>[\s\S]*?<\/script>/gi` matches. -/
def countInlineScripts : (s : List Char) → Nat
  | [] => 0
  | c :: s' =>
    match (if lcPref "<script".data (c :: s') && !srcAhead ((c :: s').drop 7) then
        cmatch [.many0 notGt, tlit ">", .many0L anyChar, tlit "</script>"] ((c :: s').drop 7)
      else none) with
    | some (_, rest) =>
        if _h : rest.length < (c :: s').length then 1 + countInlineScripts rest else 0
    | none => countInlineScripts s'
  termination_by s => s.length

/-- `js-001`/`cwv-003` (shared case group, line 1243): under 15 script
tags and under 5 inline scripts. -/
def checkJsExecution (html : List Char) : Bool :=
  let scriptTags := countRe [[tlit "<script", .many0 notGt, tlit ">"]] html
  let inlineScripts := countInlineScripts html
  decide (scriptTags < 15) && decide (inlineScripts < 5)

/-- `ux-003` (line 1261): a loading indicator mentioned. -/
def checkUx003 (html : List Char) : Bool :=
  reTest [[tlit "spinner"], [tlit "loading"], [tlit "loader"]] html

/-- Slice of the leftmost match. -/
def reFirstSlice (alts : List (List Tok)) : (s : List Char) → Option (List Char)
  | [] => (cmatchAlts alts []).map (fun _ => [])
  | c :: s' =>
    match cmatchAlts alts (c :: s') with
    | some (_, rest) => some ((c :: s').take ((c :: s').length - rest.length))
    | none => reFirstSlice alts s'
  termination_by s => s.length

/-- `ux-001` (line 1273): a `<nav>` with at least three links. -/
def checkUx001 (html : List Char) : Bool :=
  let hasNav := reTest [[tlit "<nav", .many0 notGt, tlit ">"]] html
  let navLinks := if hasNav then
      match reFirstSlice [[tlit "<nav", .many0L anyChar, tlit "</nav>"]] html with
      | some sl => countRe [[tlit "<a", .many0 notGt, tlit ">"]] sl
      | none => 0
    else 0
  hasNav && decide (3 ≤ navLinks)

/-- `ux-002` (line 1290): no forms, or labels and placeholders present. -/
def checkUx002 (html : List Char) : Bool :=
  let forms := countRe [[tlit "<form", .many0 notGt, tlit ">"]] html
  let labels := countRe [[tlit "<label", .many0 notGt, tlit ">"]] html
  let hasPlaceholders := reTest [[tlit "placeholder="]] html
  forms == 0 || (decide (0 < labels) && hasPlaceholders)

/-- `content-001` (line 1308): tag-stripped text over 100 characters with
average word length under 6. -/
def checkContent001 (html : List Char) : Bool :=
  let textLength := (trimList (jsRemoveAll [[tlit "<", .one notGt, .many0 notGt,
    tlit ">"]] html)).length
  let wordCount := countRe [[.one isWs, .many0 isWs]] html + 1
  decide (textLength < 6 * wordCount) && decide (100 < textLength)

/-- `content-002` (line 1319): an email or phone plus a contact page. -/
def checkContent002 (html : List Char) : Bool :=
  let hasEmail := reTest [[tlit "mailto:"], [tlit "@"]] html
  let hasPhone := reTest [[tlit "tel:"], [tlit "phone"], [tlit "telefon"]] html
  let hasContact := reTest [[tlit "contact"], [tlit "kontakt"], [tlit "impressum"]] html
  (hasEmail || hasPhone) && hasContact

/-- The `default` case (line 1331): category heuristics, otherwise an
unconditional failure requiring manual review. -/
def defaultCheck (rule : Rule) (html : List Char) : Bool :=
  let categoryLower := strLower rule.category
  if jsIncludes categoryLower "javascript" then
    decide (countRe [[tlit "<script"]] html < 20)
  else if jsIncludes categoryLower "performance" then
    decide (html.length < 500000)
  else if jsIncludes categoryLower "accessibility" then
    reTest [[tlit "aria-"]] html || reTest [[tlit "alt="]] html
  else false

/-! ### Dispatch -/

/-- The `switch (rule.id)` of `performRuleCheck` (lines 181-1373),
embedded as its `passed` projection.  JavaScript `switch` semantics:
case labels are compared top to bottom and the first strict-equal label
wins, so the later occurrences of the duplicated ids `html-002`,
`sec-002`, `sec-003`, `seo-006` and `seo-003` are unreachable; they are
kept here in their source positions. -/
def performRuleCheck (rule : Rule) (html : List Char) (headers : Headers)
    (siteUrl : String) : Bool :=
  if rule.id = "sec-001" then checkSec001 siteUrl
  else if rule.id = "html-002" then checkHtml002First html
  else if rule.id = "html-003" then checkHtml003 html
  else if rule.id = "seo-001" then checkSeo001 html
  else if rule.id = "seo-002" then checkSeo002 html
  else if rule.id = "wcag-001" then checkWcag001 html
  else if rule.id = "wcag-004" then checkWcag004 html
  else if rule.id = "sec-002" ∨ rule.id = "sec-003" then checkSecurityHeadersCombined headers
  else if rule.id = "wcag-002" then checkWcag002 html
  else if rule.id = "wcag-003" then checkWcag003 html
  else if rule.id = "seo-004" then checkSeo004 html
  else if rule.id = "css-002" then checkCss002 html
  else if rule.id = "js-003" then checkJs003 html
  else if rule.id = "mobile-003" then checkMobile003 html
  else if rule.id = "airbnb-004" then checkAirbnb004 html
  else if rule.id = "airbnb-005" then checkAirbnb005 html
  else if rule.id = "googlejs-002" then checkGooglejs002 html
  else if rule.id = "googlejs-003" then checkGooglejs003 html
  else if rule.id = "eslint-001" then checkEslint001 html
  else if rule.id = "eslint-004" then checkEslint004 html
  else if rule.id = "lighthouse-003" then checkLighthouse003 html
  else if rule.id = "lighthouse-004" then checkLighthouse004 html
  else if rule.id = "pwa-003" then checkPwa003 siteUrl
  else if rule.id = "pwa-004" then checkPwa004 html
  else if rule.id = "a11y-003" then checkA11y003 html
  else if rule.id = "webaim-001" then checkWebaim001 html
  else if rule.id = "webaim-002" then checkWebaim002 html
  else if rule.id = "webaim-003" then checkWebaim003 html
  else if rule.id = "schema-002" then checkSchema002 html
  else if rule.id = "og-002" then checkOg002 html
  else if rule.id = "httparch-001" then checkHttparch001 html siteUrl
  else if rule.id = "httparch-002" then checkHttparch002 html
  else if rule.id = "carbon-001" then checkCarbon001 html
  else if rule.id = "carbon-002" then checkCarbon002 html
  else if rule.id = "material-001" then checkMaterial001 html
  else if rule.id = "material-002" then checkMaterial002 html
  else if rule.id = "seo-003" then checkSeo003First html
  else if rule.id = "eslint-002" then checkEslint002 html
  else if rule.id = "eslint-003" then checkEslint003 html
  else if rule.id = "googlejs-001" then checkGooglejs001 html
  else if rule.id = "googlejs-004" then checkGooglejs004 html
  else if rule.id = "js-002" ∨ rule.id = "perf-003" ∨ rule.id = "lighthouse-002" then
    checkRenderBlocking html
  else if rule.id = "perf-002" ∨ rule.id = "lighthouse-001" then checkImageOptimization html
  else if rule.id = "seo-006" then checkSeo006First html
  else if rule.id = "schema-001" then checkSchema001 html
  else if rule.id = "og-001" then checkOg001 html
  else if rule.id = "og-003" then checkOg003 html
  else if rule.id = "pwa-001" then checkPwa001 html
  else if rule.id = "pwa-002" then checkPwa002 html
  else if rule.id = "wcag-006" then checkWcag006 html
  else if rule.id = "wcag-005" then checkWcag005 html
  else if rule.id = "html-002" then checkHtml002Second html
  else if rule.id = "html-001" then checkHtml001 html
  else if rule.id = "css-003" then checkCss003 html
  else if rule.id = "css-001" then checkCss001 html
  else if rule.id = "a11y-002" then checkA11y002 html
  else if rule.id = "a11y-001" then checkA11y001 html
  else if rule.id = "mobile-001" then checkMobile001 html
  else if rule.id = "mobile-002" then checkMobile002 html
  else if rule.id = "seo-006" then checkSeo006Second html
  else if rule.id = "seo-005" then checkSeo005 html
  else if rule.id = "seo-003" then checkSeo003Second html
  else if rule.id = "seo-007" then checkSeo007 siteUrl
  else if rule.id = "sec-002" then checkSec002Second headers
  else if rule.id = "sec-003" then checkSec003Second headers
  else if rule.id = "sec-004" then checkSec004 html
  else if rule.id = "airbnb-001" then checkAirbnb001 html
  else if rule.id = "airbnb-002" then checkAirbnb002 html
  else if rule.id = "airbnb-003" then checkAirbnb003 html
  else if rule.id = "perf-001" ∨ rule.id = "cwv-001" then checkLazyLoading html
  else if rule.id = "cwv-002" then checkCwv002 html
  else if rule.id = "js-001" ∨ rule.id = "cwv-003" then checkJsExecution html
  else if rule.id = "ux-003" then checkUx003 html
  else if rule.id = "ux-001" then checkUx001 html
  else if rule.id = "ux-002" then checkUx002 html
  else if rule.id = "content-001" then checkContent001 html
  else if rule.id = "content-002" then checkContent002 html
  else defaultCheck rule html

/-! ### Aggregation, analysis entry point and HTTP endpoint -/

/-- The fields of a rule-check verdict the aggregation loop reads (the
`passed` flag and the `details` text). -/
structure CheckRes where
  passed : Bool
  details : String
  deriving DecidableEq, Repr

/-- A violation entry as pushed by the evaluation loop (lines 92-108);
only the fields inspected by the claims are embedded. -/
structure Violation where
  id : String
  category : String
  severity : String
  details : String
  deriving DecidableEq, Repr

/-- The four counters mutated by the evaluation loop. -/
structure TallyCounts where
  passedRules : Nat
  failedRules : Nat
  warningRules : Nat
  infoRules : Nat
  deriving DecidableEq, Repr

/-- The `summary` object of the result. -/
structure Summary where
  totalRules : Nat
  passedRules : Nat
  failedRules : Nat
  warningRules : Nat
  infoRules : Nat
  deriving DecidableEq, Repr

/-- The analysis result (`analyzedAt` and purely presentational violation
fields are not embedded).  `overallScore` is an `Option` because
`Math.round((passed / total) * 100)` is NaN when `total` is `0`;
`none` models NaN. -/
structure AnalysisResult where
  siteName : String
  siteUrl : String
  overallScore : Option Int
  violations : List Violation
  recommendations : List String
  summary : Summary
  deriving DecidableEq, Repr

/-- The fetched page: body text and response headers. -/
structure FetchedPage where
  html : String
  headers : Headers
  deriving DecidableEq, Repr

/-- The `rulesToCheck.forEach` loop (lines 89-116): each rule's check may
throw (`Except.error` aborts the loop as an exception leaves `forEach`);
a failing rule appends one violation and bumps the counter selected by
its severity, a passing rule bumps `passedRules`. -/
def evalRulesE (check : Rule → Except String CheckRes) :
    List Rule → Except String (List Violation × TallyCounts)
  | [] => .ok ([], ⟨0, 0, 0, 0⟩)
  | r :: rs => do
    let c ← check r
    let (vs, t) ← evalRulesE check rs
    if c.passed then
      pure (vs, { t with passedRules := t.passedRules + 1 })
    else
      pure (⟨r.id, r.category, r.severity, c.details⟩ :: vs,
        if r.severity = "error" then { t with failedRules := t.failedRules + 1 }
        else if r.severity = "warning" then { t with warningRules := t.warningRules + 1 }
        else { t with infoRules := t.infoRules + 1 })

/-- Category tally in first-occurrence order (the object-key insertion
order of `generateRecommendations`). -/
def insertCategory : List (String × Nat) → String → List (String × Nat)
  | [], c => [(c, 1)]
  | (k, n) :: rest, c =>
    if k = c then (k, n + 1) :: rest else (k, n) :: insertCategory rest c

/-- `generateRecommendations` (lines 1385-1403): one `Fix N <category>
issue(s)` string per category in insertion order, first five kept. -/
def generateRecommendations (violations : List Violation) : List String :=
  let categories := violations.foldl (fun acc v => insertCategory acc v.category) []
  (categories.map (fun kv => "Fix " ++ toString kv.2 ++ " " ++ kv.1 ++ " issue(s)")).take 5

/-- `extractSiteName` (lines 1376-1383): hostname with the first
occurrence of `"www."` removed (`String.replace` with a string pattern
replaces only the first occurrence, wherever it is); parse failure gives
`"Unknown Site"`. -/
def replaceFirstList (pat : List Char) : List Char → List Char
  | [] => []
  | c :: s =>
    if pat.isPrefixOf (c :: s) then (c :: s).drop pat.length
    else c :: replaceFirstList pat s

/-- See `replaceFirstList`. -/
def extractSiteName (url : String) : String :=
  match parseUrl url with
  | .ok u => String.mk (replaceFirstList "www.".data u.hostname.data)
  | .error _ => "Unknown Site"

/-- The degenerate result built by the `catch` block (lines 131-157). -/
def degenerateResult (siteName siteUrl : String) (ruleCount : Nat)
    (errMsg : String) : AnalysisResult :=
  { siteName, siteUrl
    overallScore := some 0
    violations := [⟨"connection-error", "Connectivity", "error", errMsg⟩]
    recommendations := ["Ensure website is publicly accessible", "Check CORS settings",
      "Verify SSL certificate"]
    summary := ⟨ruleCount, 0, 1, 0, 0⟩ }

/-- The body of `analyzeWebsite` after rule selection: `totalRules` is set
before the `try` block; inside it the page is fetched and every selected
rule checked; any exception yields the degenerate result.  The per-rule
check is a parameter so that predicates that throw can be analyzed. -/
def analyzeCore (siteUrl : String) (rulesToCheck : List Rule)
    (fetched : Except String FetchedPage)
    (check : FetchedPage → Rule → Except String CheckRes) : AnalysisResult :=
  let siteName := extractSiteName siteUrl
  let totalRules := rulesToCheck.length
  match (do
      let page ← fetched
      evalRulesE (check page) rulesToCheck : Except String _) with
  | .ok (violations, t) =>
      { siteName, siteUrl
        overallScore :=
          if totalRules = 0 then none
          else some (mathRound (((t.passedRules : ℚ) / (totalRules : ℚ)) * 100))
        violations
        recommendations := generateRecommendations violations
        summary := ⟨totalRules, t.passedRules, t.failedRules, t.warningRules, t.infoRules⟩ }
  | .error e => degenerateResult siteName siteUrl totalRules e

/-- `analyzeWebsite(siteUrl, sourceFilter)` (lines 3-158): select rules,
parse the URL and fetch inside the `try`, evaluate, aggregate.  The
network is a parameter `doFetch`; the per-rule verdict builder is a
parameter `check`. -/
def analyzeWebsite (siteUrl sourceFilter : String)
    (doFetch : JsUrl → Except String FetchedPage)
    (check : FetchedPage → Rule → Except String CheckRes) : AnalysisResult :=
  analyzeCore siteUrl (selectRules sourceFilter) (parseUrl siteUrl >>= doFetch) check

/-- A raw HTTP response of the Node `http`/`https` client. -/
structure HttpResponse where
  statusCode : Nat
  statusMessage : String
  headers : Headers
  body : String
  deriving DecidableEq, Repr

/-- The fetch promise of `analyzeWebsite` (lines 36-83): issue the request
for `siteUrl`; a 3xx response with a `Location` header triggers exactly
one follow-up request whose body and headers are returned with no status
check; otherwise a non-200 status is an error and a 200 response's body
and headers are returned.  `respond` models the network, one response per
requested URL. -/
def fetchOnce (siteUrl : String) (respond : String → HttpResponse) :
    Except String FetchedPage :=
  let res := respond siteUrl
  if 300 ≤ res.statusCode ∧ res.statusCode < 400 ∧ jsTruthy (hget res.headers "location") then
    let redirectUrl := resolveUrl ((hget res.headers "location").getD "") siteUrl
    let redirectRes := respond redirectUrl
    .ok ⟨redirectRes.body, redirectRes.headers⟩
  else if res.statusCode ≠ 200 then
    .error ("HTTP " ++ toString res.statusCode ++ ": " ++ res.statusMessage)
  else .ok ⟨res.body, res.headers⟩

/-- The endpoint `api/analyze.js`: OPTIONS preflight returns 200,
non-POST 405, a missing or empty (falsy) `siteUrl` 400 with no analysis,
otherwise 200 with the result of `analyzeWebsite` (which never throws).
The pair is (status, optional result body). -/
def handleAnalyze (method : String) (siteUrl : Option String) (sourceFilter : String)
    (doFetch : JsUrl → Except String FetchedPage)
    (check : FetchedPage → Rule → Except String CheckRes) : Nat × Option AnalysisResult :=
  if method = "OPTIONS" then (200, none)
  else if method ≠ "POST" then (405, none)
  else
    match siteUrl with
    | none => (400, none)
    | some u =>
      if u = "" then (400, none)
      else (200, some (analyzeWebsite u sourceFilter doFetch check))

/-! ### Helper lemmas -/

/-- Bind on a successful `Except` computation. -/
theorem except_bind_ok {ε α β : Type} (a : α) (f : α → Except ε β) :
    (Except.ok a : Except ε α) >>= f = f a := rfl

/-- Bind on a failed `Except` computation. -/
theorem except_bind_error {ε α β : Type} (e : ε) (f : α → Except ε β) :
    (Except.error e : Except ε α) >>= f = Except.error e := rfl

/-- `pure` for `Except` is `Except.ok`. -/
theorem except_pure_eq {ε α : Type} (a : α) :
    (pure a : Except ε α) = Except.ok a := rfl

/-- Under a checker that never throws (given pointwise), the evaluation
loop hits the first throwing rule and propagates its message. -/
theorem evalRulesE_first_error (check : Rule → Except String CheckRes)
    (pre : List Rule) (r : Rule) (post : List Rule) (e : String)
    (hpre : ∀ r' ∈ pre, ∃ c, check r' = Except.ok c)
    (hr : check r = Except.error e) :
    evalRulesE check (pre ++ r :: post) = Except.error e := by
  induction pre with
  | nil => simp [evalRulesE, hr, except_bind_error, except_bind_ok]
  | cons p pre' ih =>
    obtain ⟨c, hc⟩ := hpre p (by simp)
    have h2 := ih (fun r' hmem => hpre r' (by simp [hmem]))
    simp [evalRulesE, hc, h2, except_bind_error, except_bind_ok]

/-- Full characterization of the evaluation loop for a checker that never
throws: violations are the failing rules in order, and each counter is
the number of rules selected by the corresponding branch of the
severity dispatch. -/
theorem evalRulesE_pure_eq (check : Rule → CheckRes) (rules : List Rule) :
    evalRulesE (fun r => Except.ok (check r)) rules = Except.ok
      ((rules.filter (fun r => !(check r).passed)).map
        (fun r => ⟨r.id, r.category, r.severity, (check r).details⟩),
       ⟨(rules.filter (fun r => (check r).passed)).length,
        (rules.filter (fun r => !(check r).passed && r.severity == "error")).length,
        (rules.filter (fun r =>
          !(check r).passed && !(r.severity == "error") && r.severity == "warning")).length,
        (rules.filter (fun r =>
          !(check r).passed && !(r.severity == "error") && !(r.severity == "warning"))).length⟩) := by
  induction rules with
  | nil => rfl
  | cons r rs ih =>
    by_cases hp : (check r).passed
    · simp [evalRulesE, ih, hp, except_bind_ok, except_pure_eq]
    · by_cases he : r.severity = "error"
      · simp [evalRulesE, ih, hp, he, except_bind_ok, except_pure_eq]
      · by_cases hw : r.severity = "warning"
        · simp [evalRulesE, ih, hp, he, hw, except_bind_ok, except_pure_eq]
        · simp [evalRulesE, ih, hp, he, hw, except_bind_ok, except_pure_eq]

/-- Counting form of the loop under the hypothesis that no selected
rule's check throws: the four counters sum to the number of rules and
the violations list has one entry per non-passing rule. -/
theorem evalRulesE_ok_counts (check : Rule → Except String CheckRes)
    (rules : List Rule) (hok : ∀ r ∈ rules, ∃ c, check r = Except.ok c) :
    ∃ vs t, evalRulesE check rules = Except.ok (vs, t) ∧
      t.passedRules + t.failedRules + t.warningRules + t.infoRules = rules.length ∧
      vs.length = t.failedRules + t.warningRules + t.infoRules := by
  induction rules with
  | nil => exact ⟨[], ⟨0, 0, 0, 0⟩, rfl, by simp, by simp⟩
  | cons r rs ih =>
    obtain ⟨c, hc⟩ := hok r (by simp)
    obtain ⟨vs, t, hev, hsum, hlen⟩ := ih (fun r' h => hok r' (by simp [h]))
    by_cases hp : c.passed
    · exact ⟨vs, { t with passedRules := t.passedRules + 1 },
        by simp [evalRulesE, hc, hev, hp, except_bind_ok, except_pure_eq],
        by simp; omega, by simpa using hlen⟩
    · by_cases he : r.severity = "error"
      · exact ⟨⟨r.id, r.category, r.severity, c.details⟩ :: vs,
          { t with failedRules := t.failedRules + 1 },
          by simp [evalRulesE, hc, hev, hp, he, except_bind_ok, except_pure_eq],
          by simp; omega, by simp; omega⟩
      · by_cases hw : r.severity = "warning"
        · exact ⟨⟨r.id, r.category, r.severity, c.details⟩ :: vs,
            { t with warningRules := t.warningRules + 1 },
            by simp [evalRulesE, hc, hev, hp, he, hw, except_bind_ok, except_pure_eq],
            by simp; omega, by simp; omega⟩
        · exact ⟨⟨r.id, r.category, r.severity, c.details⟩ :: vs,
            { t with infoRules := t.infoRules + 1 },
            by simp [evalRulesE, hc, hev, hp, he, hw, except_bind_ok, except_pure_eq],
            by simp; omega, by simp; omega⟩

/-! ### Claims -/

/-- Claim C3 (confirmed): when the fetch fails, no rule is evaluated (the
result does not depend on the checker) and the result is the degenerate
one: `overallScore` 0, exactly one violation with id `connection-error`,
category `Connectivity` and severity `error`, and a summary with
`totalRules` the originally-selected rule count, `failedRules` 1 and all
other counters 0. -/
theorem C3_fetch_failure_degenerate (siteUrl sourceFilter e : String)
    (doFetch : JsUrl → Except String FetchedPage)
    (check check' : FetchedPage → Rule → Except String CheckRes)
    (hfail : parseUrl siteUrl >>= doFetch = Except.error e) :
    analyzeWebsite siteUrl sourceFilter doFetch check =
      degenerateResult (extractSiteName siteUrl) siteUrl
        (selectRules sourceFilter).length e ∧
    analyzeWebsite siteUrl sourceFilter doFetch check =
      analyzeWebsite siteUrl sourceFilter doFetch check' ∧
    (analyzeWebsite siteUrl sourceFilter doFetch check).overallScore = some 0 ∧
    (analyzeWebsite siteUrl sourceFilter doFetch check).violations =
      [⟨"connection-error", "Connectivity", "error", e⟩] ∧
    (analyzeWebsite siteUrl sourceFilter doFetch check).summary =
      ⟨(selectRules sourceFilter).length, 0, 1, 0, 0⟩ := by
  have key : ∀ c : FetchedPage → Rule → Except String CheckRes,
      analyzeWebsite siteUrl sourceFilter doFetch c =
        degenerateResult (extractSiteName siteUrl) siteUrl
          (selectRules sourceFilter).length e := by
    intro c
    unfold analyzeWebsite analyzeCore
    rw [hfail]
    rfl
  refine ⟨key check, (key check).trans (key check').symm, ?_, ?_, ?_⟩ <;>
    rw [key check] <;> rfl

/-- Claim C3 witness: a concrete failing fetch produces exactly the
degenerate result. -/
theorem C3_fetch_failure_degenerate_witness :
    (analyzeWebsite "https://example.com/" "all" (fun _ => Except.error "boom")
      (fun _ _ => Except.ok ⟨true, ""⟩)).summary =
      ⟨(selectRules "all").length, 0, 1, 0, 0⟩ :=
  (C3_fetch_failure_degenerate "https://example.com/" "all" "boom"
    (fun _ => Except.error "boom") (fun _ _ => Except.ok ⟨true, ""⟩)
    (fun _ _ => Except.ok ⟨true, ""⟩) rfl).2.2.2.2

/-- Claim C2 counterexample: two selected rules, the first one's
predicate throws `"boom"`, the second one's passes.  Contrary to the
claim, the loop is not isolated per rule: the run degenerates, no
violation for the throwing rule is recorded and the passing remaining
rule is not counted. -/
theorem C2_counterexample :
    ¬ ((∃ v ∈ (analyzeCore "https://example.com/"
          [⟨"wcag-001", "Accessibility (WCAG 2.1)", "error", "WCAG 2.1 Success Criterion 1.1.1"⟩,
           ⟨"html-002", "HTML Best Practices", "error", "W3C HTML5 Specification"⟩]
          (Except.ok ⟨"", []⟩)
          (fun _ r => if r.id = "wcag-001" then Except.error "boom"
                      else Except.ok ⟨true, ""⟩)).violations,
        v.id = "wcag-001" ∧ v.details = "boom") ∧
      (analyzeCore "https://example.com/"
          [⟨"wcag-001", "Accessibility (WCAG 2.1)", "error", "WCAG 2.1 Success Criterion 1.1.1"⟩,
           ⟨"html-002", "HTML Best Practices", "error", "W3C HTML5 Specification"⟩]
          (Except.ok ⟨"", []⟩)
          (fun _ r => if r.id = "wcag-001" then Except.error "boom"
                      else Except.ok ⟨true, ""⟩)).summary.passedRules = 1) := by
  decide

/-- Claim C2 (corrected): a rule predicate that throws aborts the whole
run — the exception escapes the `forEach` into the analysis-level
`catch`, which returns the degenerate connection-error result carrying
the exception's message; remaining rules are not evaluated. -/
theorem C2_amended (siteUrl : String) (pre post : List Rule) (r : Rule)
    (e : String) (page : FetchedPage)
    (check : FetchedPage → Rule → Except String CheckRes)
    (hpre : ∀ r' ∈ pre, ∃ c, check page r' = Except.ok c)
    (hr : check page r = Except.error e) :
    analyzeCore siteUrl (pre ++ r :: post) (Except.ok page) check =
      degenerateResult (extractSiteName siteUrl) siteUrl
        (pre ++ r :: post).length e := by
  have hev := evalRulesE_first_error (check page) pre r post e hpre hr
  unfold analyzeCore
  simp [hev, except_bind_ok]

/-- Claim C2 witness: the amended statement at a concrete throwing
checker. -/
theorem C2_amended_witness :
    analyzeCore "https://example.com/"
      ([] ++ (⟨"wcag-001", "Accessibility (WCAG 2.1)", "error",
          "WCAG 2.1 Success Criterion 1.1.1"⟩ : Rule) ::
        [⟨"html-002", "HTML Best Practices", "error", "W3C HTML5 Specification"⟩])
      (Except.ok ⟨"", []⟩)
      (fun _ r => if r.id = "wcag-001" then Except.error "boom"
                  else Except.ok ⟨true, ""⟩) =
      degenerateResult (extractSiteName "https://example.com/") "https://example.com/" 2
        "boom" :=
  C2_amended "https://example.com/" []
    [⟨"html-002", "HTML Best Practices", "error", "W3C HTML5 Specification"⟩]
    ⟨"wcag-001", "Accessibility (WCAG 2.1)", "error", "WCAG 2.1 Success Criterion 1.1.1"⟩
    "boom" ⟨"", []⟩
    (fun _ r => if r.id = "wcag-001" then Except.error "boom" else Except.ok ⟨true, ""⟩)
    (by intro r' h; cases h) rfl

/-- Claim C6 (confirmed): for every selected rule subset, when the fetch
succeeds and no predicate throws, the summary counters sum to
`totalRules`, which is the number of selected rules, and the violations
list has exactly `failedRules + warningRules + infoRules` entries. -/
theorem C6_summary_invariant (siteUrl : String) (rules : List Rule)
    (page : FetchedPage) (check : FetchedPage → Rule → Except String CheckRes)
    (hok : ∀ r ∈ rules, ∃ c, check page r = Except.ok c) :
    (analyzeCore siteUrl rules (Except.ok page) check).summary.passedRules +
        (analyzeCore siteUrl rules (Except.ok page) check).summary.failedRules +
        (analyzeCore siteUrl rules (Except.ok page) check).summary.warningRules +
        (analyzeCore siteUrl rules (Except.ok page) check).summary.infoRules =
      (analyzeCore siteUrl rules (Except.ok page) check).summary.totalRules ∧
    (analyzeCore siteUrl rules (Except.ok page) check).summary.totalRules = rules.length ∧
    (analyzeCore siteUrl rules (Except.ok page) check).violations.length =
      (analyzeCore siteUrl rules (Except.ok page) check).summary.failedRules +
        (analyzeCore siteUrl rules (Except.ok page) check).summary.warningRules +
        (analyzeCore siteUrl rules (Except.ok page) check).summary.infoRules := by
  obtain ⟨vs, t, hev, hsum, hlen⟩ := evalRulesE_ok_counts (check page) rules hok
  unfold analyzeCore
  simp only [except_bind_ok, hev]
  exact ⟨by simpa using hsum, trivial, by simpa using hlen⟩

/-- Claim C6 witness: the invariant at a concrete two-rule run with one
passing and one failing rule. -/
theorem C6_summary_invariant_witness :
    (analyzeCore "https://example.com/"
        [⟨"sec-001", "Security", "error", "OWASP Top 10"⟩,
         ⟨"seo-005", "SEO (Search Engine Optimization)", "info", "Google Search Central"⟩]
        (Except.ok ⟨"", []⟩)
        (fun _ r => Except.ok ⟨r.id = "sec-001", ""⟩)).summary.passedRules +
      (analyzeCore "https://example.com/"
        [⟨"sec-001", "Security", "error", "OWASP Top 10"⟩,
         ⟨"seo-005", "SEO (Search Engine Optimization)", "info", "Google Search Central"⟩]
        (Except.ok ⟨"", []⟩)
        (fun _ r => Except.ok ⟨r.id = "sec-001", ""⟩)).summary.failedRules +
      (analyzeCore "https://example.com/"
        [⟨"sec-001", "Security", "error", "OWASP Top 10"⟩,
         ⟨"seo-005", "SEO (Search Engine Optimization)", "info", "Google Search Central"⟩]
        (Except.ok ⟨"", []⟩)
        (fun _ r => Except.ok ⟨r.id = "sec-001", ""⟩)).summary.warningRules +
      (analyzeCore "https://example.com/"
        [⟨"sec-001", "Security", "error", "OWASP Top 10"⟩,
         ⟨"seo-005", "SEO (Search Engine Optimization)", "info", "Google Search Central"⟩]
        (Except.ok ⟨"", []⟩)
        (fun _ r => Except.ok ⟨r.id = "sec-001", ""⟩)).summary.infoRules =
    (analyzeCore "https://example.com/"
        [⟨"sec-001", "Security", "error", "OWASP Top 10"⟩,
         ⟨"seo-005", "SEO (Search Engine Optimization)", "info", "Google Search Central"⟩]
        (Except.ok ⟨"", []⟩)
        (fun _ r => Except.ok ⟨r.id = "sec-001", ""⟩)).summary.totalRules :=
  (C6_summary_invariant "https://example.com/"
    [⟨"sec-001", "Security", "error", "OWASP Top 10"⟩,
     ⟨"seo-005", "SEO (Search Engine Optimization)", "info", "Google Search Central"⟩]
    ⟨"", []⟩ (fun _ r => Except.ok ⟨r.id = "sec-001", ""⟩)
    (fun r _ => ⟨⟨decide (r.id = "sec-001"), ""⟩, rfl⟩)).1

/-- Claim C10 (confirmed): each evaluated rule moves exactly one counter;
for a failing verdict the counter is selected by the severity string —
`failedRules` for `"error"`, `warningRules` for `"warning"`, `infoRules`
for every other value — while a passing verdict always increments
`passedRules` regardless of severity. -/
theorem C10_severity_dispatch (rules : List Rule) (check : Rule → CheckRes) :
    evalRulesE (fun r => Except.ok (check r)) rules = Except.ok
      ((rules.filter (fun r => !(check r).passed)).map
        (fun r => ⟨r.id, r.category, r.severity, (check r).details⟩),
       ⟨(rules.filter (fun r => (check r).passed)).length,
        (rules.filter (fun r => !(check r).passed && r.severity == "error")).length,
        (rules.filter (fun r => !(check r).passed && r.severity == "warning")).length,
        (rules.filter (fun r =>
          !(check r).passed && !(r.severity == "error") &&
            !(r.severity == "warning"))).length⟩) := by
  have h := evalRulesE_pure_eq check rules
  rw [h]
  have hfw : (rules.filter (fun r =>
      !(check r).passed && !(r.severity == "error") && r.severity == "warning")) =
      (rules.filter (fun r => !(check r).passed && r.severity == "warning")) := by
    apply List.filter_congr
    intro r _
    by_cases hw : r.severity = "warning"
    · simp [hw]
    · simp [beq_eq_false_iff_ne.mpr hw]
  rw [hfw]

/-- Projections of the success path under a non-throwing checker:
`totalRules` is the selected-rule count, `passedRules` counts the passing
rules, and the score is the guarded rounding expression (NaN as `none`
when the rule set is empty). -/
theorem analyzeCore_pure_score (siteUrl : String) (rules : List Rule)
    (page : FetchedPage) (check : FetchedPage → Rule → CheckRes) :
    (analyzeCore siteUrl rules (Except.ok page)
        (fun p r => Except.ok (check p r))).summary.totalRules = rules.length ∧
    (analyzeCore siteUrl rules (Except.ok page)
        (fun p r => Except.ok (check p r))).summary.passedRules =
      (rules.filter (fun r => (check page r).passed)).length ∧
    (analyzeCore siteUrl rules (Except.ok page)
        (fun p r => Except.ok (check p r))).overallScore =
      (if rules.length = 0 then none
       else some (mathRound ((((rules.filter (fun r =>
           (check page r).passed)).length : ℚ) / (rules.length : ℚ)) * 100))) := by
  unfold analyzeCore
  rw [except_bind_ok, evalRulesE_pure_eq]
  exact ⟨rfl, rfl, rfl⟩

/-- Claim C1 counterexample: a successful fetch with the filter `"zzz"`
selects zero rules; the returned `overallScore` is NaN (modelled `none`),
not the integer 0 the claim requires. -/
theorem C1_counterexample :
    (analyzeWebsite "https://example.com/" "zzz" (fun _ => Except.ok ⟨"", []⟩)
        (fun _ _ => Except.ok ⟨true, ""⟩)).summary.totalRules = 0 ∧
    (analyzeWebsite "https://example.com/" "zzz" (fun _ => Except.ok ⟨"", []⟩)
        (fun _ _ => Except.ok ⟨true, ""⟩)).violations = [] ∧
    (analyzeWebsite "https://example.com/" "zzz" (fun _ => Except.ok ⟨"", []⟩)
        (fun _ _ => Except.ok ⟨true, ""⟩)).overallScore = none ∧
    (analyzeWebsite "https://example.com/" "zzz" (fun _ => Except.ok ⟨"", []⟩)
        (fun _ _ => Except.ok ⟨true, ""⟩)).overallScore ≠ some 0 := by
  refine ⟨by decide, by decide, by decide, ?_⟩
  intro h
  rw [show (analyzeWebsite "https://example.com/" "zzz" (fun _ => Except.ok ⟨"", []⟩)
      (fun _ _ => Except.ok ⟨true, ""⟩)).overallScore = none from by decide] at h
  cases h

/-- Claim C1 (corrected): for every analysis with a successful fetch and
non-throwing predicates, `overallScore` equals
`round(100 * passedRules / totalRules)` whenever `totalRules > 0`, but
for an empty selected rule set (`totalRules = 0`) the code computes
`Math.round((0/0) * 100)`, which is NaN (modelled `none`), not 0. -/
theorem C1_score_formula (siteUrl sourceFilter : String)
    (doFetch : JsUrl → Except String FetchedPage) (page : FetchedPage)
    (check : FetchedPage → Rule → CheckRes)
    (hfetch : parseUrl siteUrl >>= doFetch = Except.ok page) :
    ((analyzeWebsite siteUrl sourceFilter doFetch
        (fun p r => Except.ok (check p r))).summary.totalRules ≠ 0 →
      (analyzeWebsite siteUrl sourceFilter doFetch
          (fun p r => Except.ok (check p r))).overallScore =
        some (mathRound ((100 * ((analyzeWebsite siteUrl sourceFilter doFetch
            (fun p r => Except.ok (check p r))).summary.passedRules : ℚ)) /
          ((analyzeWebsite siteUrl sourceFilter doFetch
            (fun p r => Except.ok (check p r))).summary.totalRules : ℚ)))) ∧
    ((analyzeWebsite siteUrl sourceFilter doFetch
        (fun p r => Except.ok (check p r))).summary.totalRules = 0 →
      (analyzeWebsite siteUrl sourceFilter doFetch
        (fun p r => Except.ok (check p r))).overallScore = none) := by
  have hw : analyzeWebsite siteUrl sourceFilter doFetch (fun p r => Except.ok (check p r)) =
      analyzeCore siteUrl (selectRules sourceFilter) (Except.ok page)
        (fun p r => Except.ok (check p r)) := by
    unfold analyzeWebsite
    rw [hfetch]
  obtain ⟨ht, hp, hs⟩ := analyzeCore_pure_score siteUrl (selectRules sourceFilter) page check
  rw [hw, ht, hp, hs]
  constructor
  · intro h0
    rw [if_neg h0]
    have harith : ((((selectRules sourceFilter).filter (fun r =>
          (check page r).passed)).length : ℚ) / ((selectRules sourceFilter).length : ℚ)) * 100 =
        (100 * (((selectRules sourceFilter).filter (fun r =>
          (check page r).passed)).length : ℚ)) / ((selectRules sourceFilter).length : ℚ) := by
      ring
    rw [harith]
  · intro h0
    rw [if_pos h0]

/-- Claim C1 witness: the positive branch on a concrete one-rule run —
one passing rule out of one gives score `round(100 * 1 / 1)`. -/
theorem C1_score_formula_witness :
    (analyzeWebsite "https://example.com/" "wcag-001" (fun _ => Except.ok ⟨"", []⟩)
      (fun p r => Except.ok ((fun (_ : FetchedPage) (_ : Rule) =>
        (⟨true, ""⟩ : CheckRes)) p r))).overallScore =
      some (mathRound ((100 * ((analyzeWebsite "https://example.com/" "wcag-001"
          (fun _ => Except.ok ⟨"", []⟩)
          (fun p r => Except.ok ((fun (_ : FetchedPage) (_ : Rule) =>
            (⟨true, ""⟩ : CheckRes)) p r))).summary.passedRules : ℚ)) /
        ((analyzeWebsite "https://example.com/" "wcag-001" (fun _ => Except.ok ⟨"", []⟩)
          (fun p r => Except.ok ((fun (_ : FetchedPage) (_ : Rule) =>
            (⟨true, ""⟩ : CheckRes)) p r))).summary.totalRules : ℚ))) :=
  (C1_score_formula "https://example.com/" "wcag-001" (fun _ => Except.ok ⟨"", []⟩)
    ⟨"", []⟩ (fun _ _ => ⟨true, ""⟩) rfl).1 (by decide)

/-- Claim C7 (confirmed): the token `"all"` or an empty/undefined token
selects the whole catalog in order; any other token selects exactly the
rules whose id starts with the token or whose source citation contains
it case-insensitively (union of the two criteria), preserving catalog
order (the selection is a sublist of the catalog). -/
theorem C7_selector (tok : String) :
    ((tok = "all" ∨ tok = "") → selectRules tok = webDesignRules) ∧
    (tok ≠ "all" → tok ≠ "" →
      ((∀ r : Rule, r ∈ selectRules tok ↔ r ∈ webDesignRules ∧
          (jsStartsWith r.id tok = true ∨
            jsIncludes (strLower r.source) (strLower tok) = true)) ∧
        (selectRules tok).Sublist webDesignRules)) := by
  constructor
  · rintro (h | h) <;> simp [selectRules, h]
  · intro h1 h2
    have hcond : (tok != "" && tok != "all") = true := by
      simp [bne_iff_ne, h1, h2]
    constructor
    · intro r
      simp [selectRules, hcond, List.mem_filter, Bool.or_eq_true]
    · simp only [selectRules, hcond, if_true]
      exact List.filter_sublist _

/-- Claim C7 witness: `"all"` keeps the catalog, and the token `"wcag"`
selects `wcag-001` (an id-prefix match). -/
theorem C7_selector_witness :
    selectRules "all" = webDesignRules ∧
    (⟨"wcag-001", "Accessibility (WCAG 2.1)", "error",
      "WCAG 2.1 Success Criterion 1.1.1"⟩ : Rule) ∈ selectRules "wcag" := by
  refine ⟨(C7_selector "all").1 (Or.inl rfl), ?_⟩
  exact (((C7_selector "wcag").2 (by decide) (by decide)).1 _).mpr (by decide)

/-- Claim C4 (confirmed): a 3xx first response with a `Location` header
triggers exactly one follow-up request, whose body and headers become the
fetch result as-is with no status check — the conclusion holds for every
second response, in particular one with status 404, and the result
depends only on the two consulted responses. -/
theorem C4_single_redirect (siteUrl loc : String)
    (respond respond' : String → HttpResponse)
    (h3 : 300 ≤ (respond siteUrl).statusCode)
    (h4 : (respond siteUrl).statusCode < 400)
    (hloc : hget (respond siteUrl).headers "location" = some loc)
    (hne : loc ≠ "") :
    fetchOnce siteUrl respond =
      Except.ok ⟨(respond (resolveUrl loc siteUrl)).body,
        (respond (resolveUrl loc siteUrl)).headers⟩ ∧
    (respond' siteUrl = respond siteUrl →
      respond' (resolveUrl loc siteUrl) = respond (resolveUrl loc siteUrl) →
      fetchOnce siteUrl respond' = fetchOnce siteUrl respond) := by
  have ktr : jsTruthy (some loc) = true := by simpa [jsTruthy] using hne
  have key : ∀ resp : String → HttpResponse, 300 ≤ (resp siteUrl).statusCode →
      (resp siteUrl).statusCode < 400 →
      hget (resp siteUrl).headers "location" = some loc →
      fetchOnce siteUrl resp = Except.ok ⟨(resp (resolveUrl loc siteUrl)).body,
        (resp (resolveUrl loc siteUrl)).headers⟩ := by
    intro resp k3 k4 kloc
    simp only [fetchOnce, kloc, Option.getD_some]
    rw [if_pos ⟨k3, k4, ktr⟩]
  constructor
  · exact key respond h3 h4 hloc
  · intro ha hb
    have h3' : 300 ≤ (respond' siteUrl).statusCode := by rw [ha]; exact h3
    have h4' : (respond' siteUrl).statusCode < 400 := by rw [ha]; exact h4
    have hloc' : hget (respond' siteUrl).headers "location" = some loc := by
      rw [ha]; exact hloc
    rw [key respond' h3' h4' hloc', key respond h3 h4 hloc, hb]

/-- Claim C4 witness: a concrete 301 redirect whose target answers 404 —
the second body and headers are still used as the fetch result. -/
theorem C4_single_redirect_witness :
    fetchOnce "https://first.example/"
      (fun u => if u = "https://first.example/" then
          ⟨301, "Moved Permanently", [("location", "https://second.example/page")], "first-body"⟩
        else ⟨404, "Not Found", [("content-type", "text/html")], "second-body"⟩) =
      Except.ok ⟨"second-body", [("content-type", "text/html")]⟩ := by
  rw [(C4_single_redirect "https://first.example/" "https://second.example/page"
    (fun u => if u = "https://first.example/" then
        ⟨301, "Moved Permanently", [("location", "https://second.example/page")], "first-body"⟩
      else ⟨404, "Not Found", [("content-type", "text/html")], "second-body"⟩)
    (fun u => if u = "https://first.example/" then
        ⟨301, "Moved Permanently", [("location", "https://second.example/page")], "first-body"⟩
      else ⟨404, "Not Found", [("content-type", "text/html")], "second-body"⟩)
    (by decide) (by decide) (by decide) (by decide)).1]
  rfl

/-- Claim C5 counterexample: `sec-002` is a duplicated case label; on the
header map with only `x-frame-options` the two case bodies disagree, and
the runtime verdict equals the earlier (combined) body, not the later
CSP-only body the claim designates. -/
theorem C5_counterexample :
    performRuleCheck ⟨"sec-002", "Security", "warning", "MDN Web Security"⟩ []
        [("x-frame-options", "DENY")] "https://example.com/" = true ∧
    checkSecurityHeadersCombined [("x-frame-options", "DENY")] = true ∧
    checkSec002Second [("x-frame-options", "DENY")] = false := by
  decide

/-- Claim C5 (corrected): JavaScript `switch` picks the first matching
case, so for every duplicated rule id the earlier of the two definitions
alone determines the runtime verdict; the later one is unreachable. -/
theorem C5_first_case_wins (r : Rule) (html : List Char) (headers : Headers)
    (siteUrl : String) :
    (r.id = "html-002" → performRuleCheck r html headers siteUrl = checkHtml002First html) ∧
    (r.id = "sec-002" →
      performRuleCheck r html headers siteUrl = checkSecurityHeadersCombined headers) ∧
    (r.id = "sec-003" →
      performRuleCheck r html headers siteUrl = checkSecurityHeadersCombined headers) ∧
    (r.id = "seo-003" → performRuleCheck r html headers siteUrl = checkSeo003First html) ∧
    (r.id = "seo-006" → performRuleCheck r html headers siteUrl = checkSeo006First html) := by
  obtain ⟨id, cat, sev, src⟩ := r
  refine ⟨fun h => ?_, fun h => ?_, fun h => ?_, fun h => ?_, fun h => ?_⟩ <;>
    (dsimp only at h; subst h; rfl)

/-- Claim C5 witness: the duplicated id `seo-003` dispatches to the
earlier heading-hierarchy body, at the input `"<h1"` on which the two
bodies disagree. -/
theorem C5_first_case_wins_witness :
    performRuleCheck ⟨"seo-003", "SEO (Search Engine Optimization)", "warning",
        "MDN Web Docs"⟩ "<h1".data [] "https://example.com/" =
      checkSeo003First "<h1".data :=
  (C5_first_case_wins ⟨"seo-003", "SEO (Search Engine Optimization)", "warning",
    "MDN Web Docs"⟩ "<h1".data [] "https://example.com/").2.2.2.1 rfl

/-- Claim C8 counterexample: the malformed (non-parseable, non-empty)
`siteUrl` string `"not a url"` is not rejected with a 400 — the endpoint
answers 200 and an `AnalysisResult` (the degenerate connection-error
shape) is produced. -/
theorem C8_counterexample :
    handleAnalyze "POST" (some "not a url") "all" (fun _ => Except.ok ⟨"", []⟩)
        (fun _ _ => Except.ok ⟨true, ""⟩) =
      (200, some (degenerateResult "Unknown Site" "not a url" 40
        "Invalid URL: not a url")) := by
  decide

/-- Claim C8 (corrected): only a missing or empty `siteUrl` is rejected
with a 400 before any fetch; a malformed non-empty `siteUrl` reaches
`analyzeWebsite`, whose `catch` swallows the URL-parse error and returns
the degenerate `AnalysisResult` with HTTP 200 — still without any fetch
(the response does not depend on the fetcher). -/
theorem C8_invalid_input (sourceFilter : String)
    (doFetch doFetch' : JsUrl → Except String FetchedPage)
    (check : FetchedPage → Rule → Except String CheckRes) :
    handleAnalyze "POST" none sourceFilter doFetch check = (400, none) ∧
    handleAnalyze "POST" (some "") sourceFilter doFetch check = (400, none) ∧
    (∀ u e, u ≠ "" → parseUrl u = Except.error e →
      handleAnalyze "POST" (some u) sourceFilter doFetch check =
        (200, some (degenerateResult "Unknown Site" u
          (selectRules sourceFilter).length e)) ∧
      handleAnalyze "POST" (some u) sourceFilter doFetch check =
        handleAnalyze "POST" (some u) sourceFilter doFetch' check) := by
  refine ⟨rfl, rfl, ?_⟩
  intro u e hu hp
  have key : ∀ d : JsUrl → Except String FetchedPage,
      handleAnalyze "POST" (some u) sourceFilter d check =
        (200, some (degenerateResult "Unknown Site" u
          (selectRules sourceFilter).length e)) := by
    intro d
    show (if u = "" then ((400 : Nat), (none : Option AnalysisResult))
      else (200, some (analyzeWebsite u sourceFilter d check))) = _
    rw [if_neg hu]
    have hres : analyzeWebsite u sourceFilter d check =
        degenerateResult "Unknown Site" u (selectRules sourceFilter).length e := by
      unfold analyzeWebsite analyzeCore extractSiteName
      rw [hp, except_bind_error]
      rfl
    rw [hres]
  exact ⟨key doFetch, (key doFetch).trans (key doFetch').symm⟩

/-- Claim C8 witness: the amended statement at a concrete malformed URL
and filter. -/
theorem C8_invalid_input_witness :
    handleAnalyze "POST" (some "nourl") "wcag" (fun _ => Except.ok ⟨"", []⟩)
        (fun _ _ => Except.ok ⟨true, ""⟩) =
      (200, some (degenerateResult "Unknown Site" "nourl"
        (selectRules "wcag").length "Invalid URL: nourl")) :=
  ((C8_invalid_input "wcag" (fun _ => Except.ok ⟨"", []⟩) (fun _ => Except.ok ⟨"", []⟩)
    (fun _ _ => Except.ok ⟨true, ""⟩)).2.2 "nourl" "Invalid URL: nourl"
    (by decide) rfl).1

/-- If the pattern occurs nowhere, `String.replace`'s first-occurrence
removal leaves the list unchanged. -/
theorem replaceFirstList_of_not_contains (pat : List Char) (s : List Char)
    (h : ∀ i, pat.isPrefixOf (s.drop i) = false) :
    replaceFirstList pat s = s := by
  induction s with
  | nil => rfl
  | cons c s ih =>
    have h0 : pat.isPrefixOf (c :: s) = false := by simpa using h 0
    have ih' := ih (fun i => by simpa [List.drop_succ_cons] using h (i + 1))
    simp [replaceFirstList, h0, ih']

/-- The first-occurrence removal drops exactly the occurrence at the
smallest index. -/
theorem replaceFirstList_first_occur (pat : List Char) :
    ∀ (s : List Char) (i : Nat), pat.isPrefixOf (s.drop i) = true →
      (∀ j, j < i → pat.isPrefixOf (s.drop j) = false) →
      replaceFirstList pat s = s.take i ++ s.drop (i + pat.length)
  | [], i, hi, _ => by simp [replaceFirstList]
  | c :: s, 0, hi, _ => by
    have hi' : pat.isPrefixOf (c :: s) = true := by simpa using hi
    simp only [replaceFirstList]
    rw [if_pos hi']
    simp
  | c :: s, j + 1, hi, hmin => by
    have h0 : pat.isPrefixOf (c :: s) = false := by simpa using hmin 0 (Nat.succ_pos j)
    have hi' : pat.isPrefixOf (s.drop j) = true := by
      simpa [List.drop_succ_cons] using hi
    have hmin' : ∀ k, k < j → pat.isPrefixOf (s.drop k) = false := fun k hk => by
      simpa [List.drop_succ_cons] using hmin (k + 1) (Nat.succ_lt_succ hk)
    have ih := replaceFirstList_first_occur pat s j hi' hmin'
    simp only [replaceFirstList]
    rw [if_neg (by simp [h0]), ih]
    simp [List.take_succ_cons, List.drop_succ_cons, Nat.add_right_comm]

/-- Claim C9 counterexample: the hostname `x.www.example.com` does not
start with `"www."`, yet `extractSiteName` removes the inner `"www."`
occurrence instead of returning the hostname unchanged. -/
theorem C9_counterexample :
    parseUrl "https://x.www.example.com/" =
      Except.ok ⟨"https:", "x.www.example.com", "/", ""⟩ ∧
    jsStartsWith "x.www.example.com" "www." = false ∧
    extractSiteName "https://x.www.example.com/" = "x.example.com" := by
  exact ⟨rfl, rfl, rfl⟩

/-- Claim C9 (corrected): `extractSiteName` removes the first occurrence
of `"www."` anywhere in the hostname (`String.replace` with a string
pattern), and returns the hostname unchanged only when `"www."` occurs
nowhere in it; a leading `"www."` is the special case of a first
occurrence at index 0. -/
theorem C9_www_replacement (url : String) (u : JsUrl)
    (hp : parseUrl url = Except.ok u) :
    ((∀ i, ("www.".data).isPrefixOf (u.hostname.data.drop i) = false) →
      extractSiteName url = u.hostname) ∧
    (∀ i, ("www.".data).isPrefixOf (u.hostname.data.drop i) = true →
      (∀ j, j < i → ("www.".data).isPrefixOf (u.hostname.data.drop j) = false) →
      extractSiteName url =
        String.mk (u.hostname.data.take i ++ u.hostname.data.drop (i + 4))) := by
  have hex : extractSiteName url =
      String.mk (replaceFirstList "www.".data u.hostname.data) := by
    unfold extractSiteName
    rw [hp]
  constructor
  · intro h
    rw [hex, replaceFirstList_of_not_contains _ _ h]
  · intro i hi hmin
    rw [hex, replaceFirstList_first_occur "www.".data u.hostname.data i hi hmin]
    rfl

/-- Claim C9 witness: a hostname with a leading `"www."` (first
occurrence at index 0) gets it stripped. -/
theorem C9_www_replacement_witness :
    extractSiteName "https://www.google.com" =
      String.mk ("www.google.com".data.take 0 ++ "www.google.com".data.drop (0 + 4)) :=
  (C9_www_replacement "https://www.google.com" ⟨"https:", "www.google.com", "/", ""⟩
    rfl).2 0 (by decide) (fun j hj => absurd hj (Nat.not_lt_zero j))
